import Mathlib

/-!
Shallow embedding of `ics_utils.py` (ICS invite / cancellation builder)
and proofs of its specified properties.

Strings are modelled as Lean `String`s (lists of unicode characters);
Python byte output (`str.encode("utf-8")`) is modelled by keeping the text
and, where byte-level facts matter, the UTF-8 byte list.  Machine-level
hash arithmetic (MD5) is modelled on `Nat` with explicit `% 2^32`.
-/

namespace ICSUtils

/-! ## Python string primitives -/

/-- Python whitespace characters stripped by `str.strip()` (ASCII part). -/
def isPyWhitespace (c : Char) : Bool :=
  c = ' ' || c = '\t' || c = '\n' || c = '\x0d' || c = '\x0b' || c = '\x0c'

/-- `str.strip()`: drop whitespace from both ends. -/
def pyStripList (l : List Char) : List Char :=
  ((l.dropWhile isPyWhitespace).reverse.dropWhile isPyWhitespace).reverse

/-- `str.strip()` on a `String`. -/
def pyStrip (s : String) : String := ⟨pyStripList s.data⟩

/-- Left-to-right, non-overlapping replacement of the pattern `pat` by
`repl`, the semantics of Python `str.replace` for a non-empty pattern. -/
def replaceList (pat repl : List Char) : List Char → List Char
  | [] => []
  | c :: rest =>
    if pat.isPrefixOf (c :: rest) then
      match pat with
      | [] => c :: replaceList pat repl rest
      | _ :: pt => repl ++ replaceList pat repl (rest.drop pt.length)
    else c :: replaceList pat repl rest
termination_by l => l.length
decreasing_by
  · simp
  · simp [List.length_drop]; omega
  · simp

/-- Python `str.replace` on `String`s (non-empty pattern). -/
def pyReplace (s pat repl : String) : String :=
  ⟨replaceList pat.data repl.data s.data⟩

/-- `_escape_ics` from `ics_utils.py`: escape special characters for the
ICS format.  `if not text: return ""`, then the four chained `replace`s. -/
def escapeIcs (text : String) : String :=
  if text = "" then ""
  else pyReplace (pyReplace (pyReplace (pyReplace text "\\" "\\\\") ";" "\\;") "," "\\,") "\n" "\\n"

/-- Modelled from the spec's words (reference definition for `escape_text`):
"applies, in order, these substitutions over the raw string: backslash →
double backslash; semicolon → escaped semicolon; comma → escaped comma;
newline → literal `\n` escape sequence"; "Empty/absent input yields an
empty string (no error)". -/
def escape_text_spec (s : String) : String :=
  pyReplace (pyReplace (pyReplace (pyReplace s "\\" "\\\\") ";" "\\;") "," "\\,") "\n" "\\n"

/-! ## MD5 (`hashlib.md5(...).hexdigest()`), on `Nat` mod `2^32` -/

/-- Little-endian 4-byte decomposition of a 32-bit word. -/
def le4 (x : Nat) : List Nat :=
  [x % 256, x / 256 % 256, x / 65536 % 256, x / 16777216 % 256]

/-- Little-endian 8-byte decomposition of a 64-bit length field. -/
def le8 (x : Nat) : List Nat :=
  le4 (x % 4294967296) ++ le4 (x / 4294967296)

/-- The 64 MD5 sine-derived round constants (RFC 1321). -/
def md5K : List Nat :=
  [0xd76aa478, 0xe8c7b756, 0x242070db, 0xc1bdceee,
   0xf57c0faf, 0x4787c62a, 0xa8304613, 0xfd469501,
   0x698098d8, 0x8b44f7af, 0xffff5bb1, 0x895cd7be,
   0x6b901122, 0xfd987193, 0xa679438e, 0x49b40821,
   0xf61e2562, 0xc040b340, 0x265e5a51, 0xe9b6c7aa,
   0xd62f105d, 0x02441453, 0xd8a1e681, 0xe7d3fbc8,
   0x21e1cde6, 0xc33707d6, 0xf4d50d87, 0x455a14ed,
   0xa9e3e905, 0xfcefa3f8, 0x676f02d9, 0x8d2a4c8a,
   0xfffa3942, 0x8771f681, 0x6d9d6122, 0xfde5380c,
   0xa4beea44, 0x4bdecfa9, 0xf6bb4b60, 0xbebfbc70,
   0x289b7ec6, 0xeaa127fa, 0xd4ef3085, 0x04881d05,
   0xd9d4d039, 0xe6db99e5, 0x1fa27cf8, 0xc4ac5665,
   0xf4292244, 0x432aff97, 0xab9423a7, 0xfc93a039,
   0x655b59c3, 0x8f0ccc92, 0xffeff47d, 0x85845dd1,
   0x6fa87e4f, 0xfe2ce6e0, 0xa3014314, 0x4e0811a1,
   0xf7537e82, 0xbd3af235, 0x2ad7d2bb, 0xeb86d391]

/-- The 64 MD5 per-round left-rotation amounts. -/
def md5S : List Nat :=
  [7, 12, 17, 22, 7, 12, 17, 22, 7, 12, 17, 22, 7, 12, 17, 22,
   5, 9, 14, 20, 5, 9, 14, 20, 5, 9, 14, 20, 5, 9, 14, 20,
   4, 11, 16, 23, 4, 11, 16, 23, 4, 11, 16, 23, 4, 11, 16, 23,
   6, 10, 15, 21, 6, 10, 15, 21, 6, 10, 15, 21, 6, 10, 15, 21]

/-- 32-bit left rotation on `Nat` (argument assumed `< 2^32`). -/
def rotl32 (x c : Nat) : Nat :=
  (x * 2 ^ c + x / 2 ^ (32 - c)) % 4294967296

/-- MD5 round mixing function, by round index. -/
def md5F (i b c d : Nat) : Nat :=
  if i < 16 then (b &&& c) ||| ((b ^^^ 4294967295) &&& d)
  else if i < 32 then (d &&& b) ||| ((d ^^^ 4294967295) &&& c)
  else if i < 48 then b ^^^ c ^^^ d
  else c ^^^ (b ||| (d ^^^ 4294967295))

/-- MD5 message-word index, by round index. -/
def md5G (i : Nat) : Nat :=
  if i < 16 then i
  else if i < 32 then (5 * i + 1) % 16
  else if i < 48 then (3 * i + 5) % 16
  else (7 * i) % 16

/-- The MD5 running state: four 32-bit words. -/
structure MD5State where
  a : Nat
  b : Nat
  c : Nat
  d : Nat
deriving Repr, DecidableEq

/-- MD5 initial state (RFC 1321). -/
def md5Init : MD5State :=
  ⟨0x67452301, 0xefcdab89, 0x98badcfe, 0x10325476⟩

/-- One MD5 round. -/
def md5Round (M : Nat → Nat) (st : MD5State) (i : Nat) : MD5State :=
  let f := (md5F i st.b st.c st.d + st.a + md5K.getD i 0 + M (md5G i)) % 4294967296
  ⟨st.d, (st.b + rotl32 f (md5S.getD i 0)) % 4294967296, st.b, st.c⟩

/-- Process one 64-byte chunk. -/
def md5Chunk (st : MD5State) (chunk : List Nat) : MD5State :=
  let M : Nat → Nat := fun j =>
    chunk.getD (4 * j) 0 + 256 * chunk.getD (4 * j + 1) 0 +
      65536 * chunk.getD (4 * j + 2) 0 + 16777216 * chunk.getD (4 * j + 3) 0
  let r := (List.range 64).foldl (md5Round M) st
  ⟨(st.a + r.a) % 4294967296, (st.b + r.b) % 4294967296,
   (st.c + r.c) % 4294967296, (st.d + r.d) % 4294967296⟩

/-- Split a byte list into 64-byte chunks. -/
def chunks64 (l : List Nat) : List (List Nat) :=
  if l = [] then []
  else l.take 64 :: chunks64 (l.drop 64)
termination_by l.length
decreasing_by
  rename_i h
  have : l.length ≠ 0 := fun hl => h (List.eq_nil_of_length_eq_zero hl)
  simp [List.length_drop]; omega

/-- MD5 padding: `0x80`, zeros to 56 mod 64, then the 64-bit bit length. -/
def md5Pad (msg : List Nat) : List Nat :=
  msg ++ 128 :: List.replicate ((120 - (msg.length + 1) % 64) % 64) 0 ++
    le8 (8 * msg.length % 18446744073709551616)

/-- The 16-byte MD5 digest of a byte list. -/
def md5Bytes (msg : List Nat) : List Nat :=
  let fin := (chunks64 (md5Pad msg)).foldl md5Chunk md5Init
  le4 fin.a ++ le4 fin.b ++ le4 fin.c ++ le4 fin.d

/-- Lower-case hex digit for `n < 16`. -/
def hexChar (n : Nat) : Char :=
  if n < 10 then Char.ofNat (48 + n) else Char.ofNat (87 + n)

/-- Two hex digits of a byte (`"%02x"`). -/
def byteHex (b : Nat) : List Char :=
  [hexChar (b / 16), hexChar (b % 16)]

/-- Lower-case hex string of a byte list (`hexdigest`). -/
def bytesToHex (bs : List Nat) : String :=
  ⟨(bs.map byteHex).flatten⟩

/-- UTF-8 bytes of a string (`str.encode("utf-8")`). -/
def utf8Bytes (s : String) : List Nat :=
  s.toUTF8.toList.map (fun b => b.toNat)

/-- `hashlib.md5(seed.encode("utf-8")).hexdigest()`. -/
def md5hex (s : String) : String :=
  bytesToHex (md5Bytes (utf8Bytes s))

/-- `stable_uid` from `ics_utils.py`: deterministic UID for ICS invites.
In the source `domain` defaults to `"powerdashhr.com"`; here it is passed
explicitly.  Raising `ICSValidationError` is modelled by `Except.error`
of the message. -/
def stable_uid (seed : String) (domain : String) :
    Except String String :=
  if seed = "" then .error "stable_uid requires a non-empty seed"
  else .ok (md5hex seed ++ "@" ++ domain)

/-- The hex-digit alphabet used by `hexdigest`. -/
def hexDigits : List Char := "0123456789abcdef".data

theorem le4_length (x : Nat) : (le4 x).length = 4 := rfl

theorem md5Bytes_length (msg : List Nat) : (md5Bytes msg).length = 16 := by
  simp [md5Bytes, le4]

theorem le4_lt (x : Nat) : ∀ b ∈ le4 x, b < 256 := by
  simp only [le4, List.mem_cons, List.not_mem_nil, or_false]
  rintro b (rfl | rfl | rfl | rfl) <;> omega

theorem md5Bytes_lt (msg : List Nat) : ∀ b ∈ md5Bytes msg, b < 256 := by
  intro b hb
  simp only [md5Bytes, List.mem_append] at hb
  rcases hb with ((h | h) | h) | h <;> exact le4_lt _ _ h

theorem hexChar_mem_hexDigits : ∀ n < 16, hexChar n ∈ hexDigits := by decide

theorem bytesToHex_length (bs : List Nat) :
    (bytesToHex bs).length = 2 * bs.length := by
  induction bs with
  | nil => rfl
  | cons b t ih =>
    simp only [bytesToHex, String.length] at ih ⊢
    simp [byteHex, ih]
    omega

theorem mem_bytesToHex (bs : List Nat) (hb : ∀ b ∈ bs, b < 256) :
    ∀ c ∈ (bytesToHex bs).data, c ∈ hexDigits := by
  intro c hc
  simp only [bytesToHex, List.mem_flatten, List.mem_map] at hc
  obtain ⟨l, ⟨b, hbmem, rfl⟩, hcl⟩ := hc
  have hblt := hb b hbmem
  simp only [byteHex, List.mem_cons, List.not_mem_nil, or_false] at hcl
  rcases hcl with rfl | rfl
  · exact hexChar_mem_hexDigits _ (by omega)
  · exact hexChar_mem_hexDigits _ (by omega)

theorem md5hex_length (s : String) : (md5hex s).length = 32 := by
  rw [md5hex, bytesToHex_length, md5Bytes_length]

theorem md5hex_hex (s : String) : ∀ c ∈ (md5hex s).data, c ∈ hexDigits :=
  mem_bytesToHex _ (md5Bytes_lt _)

/-! ## Properties of the escaping function -/

/-- Character-level view of the four chained replacements. -/
def escChar (c : Char) : List Char :=
  if c = '\\' then ['\\', '\\']
  else if c = ';' then ['\\', ';']
  else if c = ',' then ['\\', ',']
  else if c = '\n' then ['\\', 'n']
  else [c]

/-- The single backslash-doubling substitution, per character. -/
def escB (c : Char) : List Char := if c = '\\' then ['\\', '\\'] else [c]

/-- The semicolon substitution, per character. -/
def escS (c : Char) : List Char := if c = ';' then ['\\', ';'] else [c]

/-- The comma substitution, per character. -/
def escC (c : Char) : List Char := if c = ',' then ['\\', ','] else [c]

/-- The newline substitution, per character. -/
def escN (c : Char) : List Char := if c = '\n' then ['\\', 'n'] else [c]

theorem replaceList_singleton (c : Char) (r : List Char) (l : List Char) :
    replaceList [c] r l = l.flatMap (fun x => if x = c then r else [x]) := by
  induction l with
  | nil => rw [replaceList]; rfl
  | cons x rest ih =>
    rw [replaceList]
    simp only [List.isPrefixOf, Bool.and_true, List.flatMap_cons]
    by_cases h : x = c
    · subst h
      simp [ih]
    · have hbe : (c == x) = false := by simp [Ne.symm h]
      simp [hbe, h, ih]

theorem escChar_chain (c : Char) :
    (((escB c).flatMap escS).flatMap escC).flatMap escN = escChar c := by
  by_cases h1 : c = '\\'
  · subst h1; decide
  · by_cases h2 : c = ';'
    · subst h2; decide
    · by_cases h3 : c = ','
      · subst h3; decide
      · by_cases h4 : c = '\n'
        · subst h4; decide
        · simp [escB, escS, escC, escN, escChar, h1, h2, h3, h4]

theorem escChain_flatMap (l : List Char) :
    (((l.flatMap escB).flatMap escS).flatMap escC).flatMap escN
      = l.flatMap escChar := by
  induction l with
  | nil => rfl
  | cons c rest ih =>
    simp only [List.flatMap_cons, List.flatMap_append]
    rw [ih, escChar_chain]

theorem escape_text_spec_flatMap (s : String) :
    escape_text_spec s = ⟨s.data.flatMap escChar⟩ := by
  rw [escape_text_spec]
  show (⟨replaceList "\n".data "\\n".data
    (replaceList ",".data "\\,".data
      (replaceList ";".data "\\;".data
        (replaceList "\\".data "\\\\".data s.data)))⟩ : String)
      = ⟨s.data.flatMap escChar⟩
  congr 1
  have e1 : replaceList "\\".data "\\\\".data s.data = s.data.flatMap escB :=
    replaceList_singleton '\\' ['\\', '\\'] s.data
  have e2 : ∀ m : List Char, replaceList ";".data "\\;".data m = m.flatMap escS :=
    fun m => replaceList_singleton ';' ['\\', ';'] m
  have e3 : ∀ m : List Char, replaceList ",".data "\\,".data m = m.flatMap escC :=
    fun m => replaceList_singleton ',' ['\\', ','] m
  have e4 : ∀ m : List Char, replaceList "\n".data "\\n".data m = m.flatMap escN :=
    fun m => replaceList_singleton '\n' ['\\', 'n'] m
  rw [e1, e2, e3, e4, escChain_flatMap]

theorem escapeIcs_flatMap (s : String) :
    escapeIcs s = ⟨s.data.flatMap escChar⟩ := by
  by_cases h0 : s = ""
  · subst h0
    rfl
  · rw [escapeIcs, if_neg h0]
    show (⟨replaceList "\n".data "\\n".data
      (replaceList ",".data "\\,".data
        (replaceList ";".data "\\;".data
          (replaceList "\\".data "\\\\".data s.data)))⟩ : String)
        = ⟨s.data.flatMap escChar⟩
    congr 1
    have e1 : replaceList "\\".data "\\\\".data s.data = s.data.flatMap escB :=
      replaceList_singleton '\\' ['\\', '\\'] s.data
    have e2 : ∀ m : List Char, replaceList ";".data "\\;".data m = m.flatMap escS :=
      fun m => replaceList_singleton ';' ['\\', ';'] m
    have e3 : ∀ m : List Char, replaceList ",".data "\\,".data m = m.flatMap escC :=
      fun m => replaceList_singleton ',' ['\\', ','] m
    have e4 : ∀ m : List Char, replaceList "\n".data "\\n".data m = m.flatMap escN :=
      fun m => replaceList_singleton '\n' ['\\', 'n'] m
    rw [e1, e2, e3, e4, escChain_flatMap]

/-- Scanner deciding whether a character list still contains a raw
(unescaped) special character: a backslash consumes the following
character as an escape; a bare trailing backslash, or a semicolon, comma
or newline outside an escape pair, is raw. -/
def hasRawSpecial : List Char → Bool
  | [] => false
  | c :: rest =>
    if c = '\\' then
      match rest with
      | [] => true
      | _ :: rest2 => hasRawSpecial rest2
    else (c = ';' || c = ',' || c = '\n') || hasRawSpecial rest

theorem hasRawSpecial_escChar (l : List Char) :
    hasRawSpecial (l.flatMap escChar) = false := by
  induction l with
  | nil => rfl
  | cons c rest ih =>
    rw [List.flatMap_cons]
    by_cases h1 : c = '\\'
    · subst h1
      simpa [escChar, hasRawSpecial] using ih
    · by_cases h2 : c = ';'
      · subst h2
        simpa [escChar, hasRawSpecial] using ih
      · by_cases h3 : c = ','
        · subst h3
          simpa [escChar, hasRawSpecial] using ih
        · by_cases h4 : c = '\n'
          · subst h4
            simpa [escChar, hasRawSpecial] using ih
          · have hc : escChar c = [c] := by simp [escChar, h1, h2, h3, h4]
            rw [hc, List.singleton_append, hasRawSpecial.eq_def]
            simp [h1, h2, h3, h4, ih]

/-! ## Datetimes (`datetime`, `astimezone(timezone.utc)`, `strftime`) -/

/-- Gregorian leap-year rule. -/
def isLeap (y : Nat) : Bool :=
  (y % 4 = 0 && y % 100 ≠ 0) || y % 400 = 0

/-- Days in a month of the proleptic Gregorian calendar. -/
def daysInMonth (y m : Nat) : Nat :=
  if m = 2 then (if isLeap y then 29 else 28)
  else if m = 4 || m = 6 || m = 9 || m = 11 then 30
  else 31

/-- A Python `datetime`: civil fields plus an optional fixed-offset time
zone (minutes east of UTC); `none` models a naive datetime. -/
structure PyDatetime where
  year : Nat
  month : Nat
  day : Nat
  hour : Nat
  minute : Nat
  second : Nat
  microsecond : Nat
  tzOffsetMinutes : Option Int
deriving Repr, DecidableEq

/-- A datetime whose fields are in the ranges Python's `datetime`
guarantees (`MINYEAR = 1`, `MAXYEAR = 9999`, offsets shorter than one
day). -/
def ValidDT (t : PyDatetime) : Prop :=
  1 ≤ t.year ∧ t.year ≤ 9999 ∧ 1 ≤ t.month ∧ t.month ≤ 12 ∧
    1 ≤ t.day ∧ t.day ≤ daysInMonth t.year t.month ∧
    t.hour ≤ 23 ∧ t.minute ≤ 59 ∧ t.second ≤ 59 ∧ t.microsecond ≤ 999999 ∧
    (∀ o ∈ t.tzOffsetMinutes, o.natAbs ≤ 1439)

instance (t : PyDatetime) : Decidable (ValidDT t) := by
  unfold ValidDT; infer_instance

/-- Day count of a civil date since 0000-03-01, proleptic Gregorian
(linear days-from-civil formula). -/
def dayNumber (y m d : Nat) : Nat :=
  let y' := if m ≤ 2 then y - 1 else y
  let mp := if m ≤ 2 then m + 9 else m - 3
  365 * y' + y' / 4 - y' / 100 + y' / 400 + (153 * mp + 2) / 5 + d - 1

/-- The day after a civil date. -/
def nextDay (y m d : Nat) : Nat × Nat × Nat :=
  if d < daysInMonth y m then (y, m, d + 1)
  else if m < 12 then (y, m + 1, 1)
  else (y + 1, 1, 1)

/-- The day before a civil date. -/
def prevDay (y m d : Nat) : Nat × Nat × Nat :=
  if 1 < d then (y, m, d - 1)
  else if 1 < m then (y, m - 1, daysInMonth y (m - 1))
  else (y - 1, 12, 31)

/-- `dt.astimezone(timezone.utc)` preceded by
`dt.replace(tzinfo=timezone.utc)` when `dt` is naive — the normalization
performed by `_format_dt`.  An aware datetime is shifted by its UTC
offset (less than one day, so at most one day-boundary crossing); a naive
one is just tagged as UTC. -/
def shiftToUTC (t : PyDatetime) : PyDatetime :=
  match t.tzOffsetMinutes with
  | none => { t with tzOffsetMinutes := some 0 }
  | some o =>
    let tm : Int := 60 * t.hour + t.minute - o
    if tm < 0 then
      let p := prevDay t.year t.month t.day
      { year := p.1, month := p.2.1, day := p.2.2,
        hour := ((tm + 1440) / 60).toNat, minute := ((tm + 1440) % 60).toNat,
        second := t.second, microsecond := t.microsecond,
        tzOffsetMinutes := some 0 }
    else if tm < 1440 then
      { t with hour := (tm / 60).toNat, minute := (tm % 60).toNat,
               tzOffsetMinutes := some 0 }
    else
      let p := nextDay t.year t.month t.day
      { year := p.1, month := p.2.1, day := p.2.2,
        hour := ((tm - 1440) / 60).toNat, minute := ((tm - 1440) % 60).toNat,
        second := t.second, microsecond := t.microsecond,
        tzOffsetMinutes := some 0 }

/-- Minutes since epoch 0000-03-01 of the civil fields, ignoring zone. -/
def naiveMinutes (t : PyDatetime) : Int :=
  1440 * (dayNumber t.year t.month t.day : Int) + 60 * t.hour + t.minute

/-- The absolute instant (in minutes, UTC) a datetime denotes; a naive
datetime is read as UTC. -/
def instantMinutes (t : PyDatetime) : Int :=
  naiveMinutes t - (t.tzOffsetMinutes.getD 0)

/-- `"%02d"` zero-padding for field values below 100. -/
def pad2 (n : Nat) : List Char :=
  [Char.ofNat (48 + n / 10), Char.ofNat (48 + n % 10)]

/-- `"%04d"` zero-padding for field values below 10000. -/
def pad4 (n : Nat) : List Char :=
  [Char.ofNat (48 + n / 1000), Char.ofNat (48 + n / 100 % 10),
   Char.ofNat (48 + n / 10 % 10), Char.ofNat (48 + n % 10)]

/-- `_format_dt` from `ics_utils.py`: tag a naive datetime as UTC,
convert an aware one to UTC, and format with
`strftime("%Y%m%dT%H%M%SZ")` (whole seconds only). -/
def format_dt (dt : PyDatetime) : String :=
  let u := shiftToUTC dt
  ⟨pad4 u.year ++ pad2 u.month ++ pad2 u.day ++ ['T'] ++
    pad2 u.hour ++ pad2 u.minute ++ pad2 u.second ++ ['Z']⟩

set_option maxHeartbeats 1600000 in
theorem dayNumber_march (y : Nat) (hy : 1 ≤ y) :
    dayNumber y 3 1 = dayNumber y 2 (daysInMonth y 2) + 1 := by
  by_cases hleap : isLeap y = true
  · have hc : daysInMonth y 2 = 29 := by simp [daysInMonth, hleap]
    simp only [isLeap, Bool.or_eq_true, Bool.and_eq_true, Bool.not_eq_true',
      decide_eq_true_eq] at hleap
    rw [hc]
    simp only [dayNumber]
    norm_num
    omega
  · rw [Bool.not_eq_true] at hleap
    have hc : daysInMonth y 2 = 28 := by simp [daysInMonth, hleap]
    simp only [isLeap, Bool.or_eq_false_iff, Bool.and_eq_false_iff,
      Bool.not_eq_false', decide_eq_true_eq, decide_eq_false_iff_not] at hleap
    rw [hc]
    simp only [dayNumber]
    norm_num
    omega

theorem dayNumber_succ_day (y m d : Nat) (hd : 1 ≤ d) :
    dayNumber y m (d + 1) = dayNumber y m d + 1 := by
  simp only [dayNumber]
  generalize (if m ≤ 2 then y - 1 else y) = Y
  generalize (if m ≤ 2 then m + 9 else m - 3) = M
  generalize 365 * Y + Y / 4 - Y / 100 + Y / 400 + (153 * M + 2) / 5 = A
  omega

theorem dayNumber_pred_day (y m d : Nat) (hd : 2 ≤ d) :
    dayNumber y m (d - 1) + 1 = dayNumber y m d := by
  simp only [dayNumber]
  generalize (if m ≤ 2 then y - 1 else y) = Y
  generalize (if m ≤ 2 then m + 9 else m - 3) = M
  generalize 365 * Y + Y / 4 - Y / 100 + Y / 400 + (153 * M + 2) / 5 = A
  omega

set_option maxHeartbeats 800000 in
theorem dayNumber_nextDay (y m d : Nat) (hy : 1 ≤ y) (hm1 : 1 ≤ m)
    (hm2 : m ≤ 12) (hd1 : 1 ≤ d) (hd2 : d ≤ daysInMonth y m) :
    dayNumber (nextDay y m d).1 (nextDay y m d).2.1 (nextDay y m d).2.2
      = dayNumber y m d + 1 := by
  rw [nextDay]
  by_cases hlt : d < daysInMonth y m
  · simp only [if_pos hlt]
    show dayNumber y m (d + 1) = dayNumber y m d + 1
    exact dayNumber_succ_day y m d hd1
  · simp only [if_neg hlt]
    have hdim : d = daysInMonth y m := by omega
    by_cases hm12 : m < 12
    · simp only [if_pos hm12]
      show dayNumber y (m + 1) 1 = dayNumber y m d + 1
      subst hdim
      interval_cases m
      · simp only [dayNumber, daysInMonth]; norm_num; try omega
      · exact dayNumber_march y hy
      all_goals (simp only [dayNumber, daysInMonth]; norm_num; try omega)
    · simp only [if_neg hm12]
      show dayNumber (y + 1) 1 1 = dayNumber y m d + 1
      have hm' : m = 12 := by omega
      subst hm'
      simp only [hdim, dayNumber, daysInMonth]
      norm_num
      try omega

set_option maxHeartbeats 1600000 in
theorem dayNumber_prevDay (y m d : Nat) (hy : 1 ≤ y) (hm1 : 1 ≤ m)
    (hm2 : m ≤ 12) (hd1 : 1 ≤ d) (hd2 : d ≤ daysInMonth y m) :
    dayNumber (prevDay y m d).1 (prevDay y m d).2.1 (prevDay y m d).2.2 + 1
      = dayNumber y m d := by
  rw [prevDay]
  by_cases h1 : 1 < d
  · simp only [if_pos h1]
    show dayNumber y m (d - 1) + 1 = dayNumber y m d
    exact dayNumber_pred_day y m d (by omega)
  · simp only [if_neg h1]
    have hd' : d = 1 := by omega
    subst hd'
    by_cases hm : 1 < m
    · simp only [if_pos hm]
      show dayNumber y (m - 1) (daysInMonth y (m - 1)) + 1 = dayNumber y m 1
      interval_cases m
      · simp only [dayNumber, daysInMonth]; norm_num; try omega
      · exact (dayNumber_march y hy).symm
      all_goals (simp only [dayNumber, daysInMonth]; norm_num; try omega)
    · simp only [if_neg hm]
      have hm' : m = 1 := by omega
      subst hm'
      show dayNumber (y - 1) 12 31 + 1 = dayNumber y 1 1
      simp only [dayNumber]
      norm_num
      try omega

theorem daysInMonth_le (y m : Nat) : daysInMonth y m ≤ 31 := by
  rw [daysInMonth]
  split_ifs <;> omega

theorem daysInMonth_pos (y m : Nat) : 1 ≤ daysInMonth y m := by
  rw [daysInMonth]
  split_ifs <;> omega

/-- `astimezone(timezone.utc)` (after tagging naive datetimes as UTC)
preserves the denoted instant, passes seconds and microseconds through
unchanged, and leaves the result carrying the UTC offset `0`. -/
theorem shiftToUTC_instant (t : PyDatetime) (hv : ValidDT t) :
    instantMinutes (shiftToUTC t) = instantMinutes t ∧
      (shiftToUTC t).second = t.second ∧
      (shiftToUTC t).microsecond = t.microsecond ∧
      (shiftToUTC t).tzOffsetMinutes = some 0 := by
  obtain ⟨hy1, hy2, hm1, hm2, hd1, hd2, hh, hmi, hs, hus, htz⟩ := hv
  rcases t with ⟨y, mo, d, hh0, mi0, s0, us0, tz⟩
  simp only at hy1 hy2 hm1 hm2 hd1 hd2 hh hmi hs hus htz
  cases tz with
  | none =>
    simp [shiftToUTC, instantMinutes, naiveMinutes]
  | some o =>
    have ho : o.natAbs ≤ 1439 := htz o rfl
    simp only [shiftToUTC]
    split_ifs with hneg hmid
    · have hD := dayNumber_prevDay y mo d hy1 hm1 hm2 hd1 hd2
      refine ⟨?_, rfl, rfl, rfl⟩
      simp [instantMinutes, naiveMinutes] <;> omega
    · refine ⟨?_, rfl, rfl, rfl⟩
      simp [instantMinutes, naiveMinutes] <;> omega
    · have hD := dayNumber_nextDay y mo d hy1 hm1 hm2 hd1 hd2
      refine ⟨?_, rfl, rfl, rfl⟩
      simp [instantMinutes, naiveMinutes] <;> omega

/-- Field bounds of the UTC-normalized datetime. -/
theorem shiftToUTC_bounds (t : PyDatetime) (hv : ValidDT t) :
    (shiftToUTC t).month ≤ 12 ∧ (shiftToUTC t).day ≤ 31 ∧
      (shiftToUTC t).hour ≤ 23 ∧ (shiftToUTC t).minute ≤ 59 ∧
      (shiftToUTC t).second ≤ 59 := by
  obtain ⟨hy1, hy2, hm1, hm2, hd1, hd2, hh, hmi, hs, hus, htz⟩ := hv
  rcases t with ⟨y, mo, d, hh0, mi0, s0, us0, tz⟩
  simp only at hy1 hy2 hm1 hm2 hd1 hd2 hh hmi hs hus htz
  cases tz with
  | none => simpa [shiftToUTC] using ⟨hm2, le_trans hd2 (daysInMonth_le y mo), hh, hmi, hs⟩
  | some o =>
    have ho : o.natAbs ≤ 1439 := htz o rfl
    have hdim31 : daysInMonth y mo ≤ 31 := daysInMonth_le y mo
    simp only [shiftToUTC]
    split_ifs with hneg hmid
    · have hm12 : (prevDay y mo d).2.1 ≤ 12 := by
        rw [prevDay]; split_ifs <;> simp <;> omega
      have hd31 : (prevDay y mo d).2.2 ≤ 31 := by
        rw [prevDay]
        split_ifs <;> simp [daysInMonth_le] <;> omega
      refine ⟨hm12, hd31, ?_, ?_, hs⟩ <;> simp <;> omega
    · refine ⟨hm2, le_trans hd2 hdim31, ?_, ?_, hs⟩ <;> simp <;> omega
    · have hm12 : (nextDay y mo d).2.1 ≤ 12 := by
        rw [nextDay]; split_ifs <;> simp <;> omega
      have hd31 : (nextDay y mo d).2.2 ≤ 31 := by
        rw [nextDay]; split_ifs <;> simp <;> omega
      refine ⟨hm12, hd31, ?_, ?_, hs⟩ <;> simp <;> omega

theorem digit_char_isDigit : ∀ k < 10, (Char.ofNat (48 + k)).isDigit = true := by
  decide

theorem pad2_digits (n : Nat) (h : n ≤ 99) : ∀ c ∈ pad2 n, c.isDigit = true := by
  intro c hc
  simp only [pad2, List.mem_cons, List.not_mem_nil, or_false] at hc
  rcases hc with rfl | rfl
  · exact digit_char_isDigit _ (by omega)
  · exact digit_char_isDigit _ (by omega)

theorem pad4_digits (n : Nat) (h : n ≤ 9999) : ∀ c ∈ pad4 n, c.isDigit = true := by
  intro c hc
  simp only [pad4, List.mem_cons, List.not_mem_nil, or_false] at hc
  rcases hc with rfl | rfl | rfl | rfl
  · exact digit_char_isDigit _ (by omega)
  · exact digit_char_isDigit _ (by omega)
  · exact digit_char_isDigit _ (by omega)
  · exact digit_char_isDigit _ (by omega)

/-- The shift to UTC is independent of the microsecond field. -/
theorem shiftToUTC_microsecond (dt : PyDatetime) (us : Nat) :
    shiftToUTC { dt with microsecond := us }
      = { shiftToUTC dt with microsecond := us } := by
  rcases dt with ⟨y, mo, d, hh0, mi0, s0, us0, tz⟩
  cases tz with
  | none => rfl
  | some o =>
    simp only [shiftToUTC]
    split_ifs <;> rfl

/-- `_format_dt` truncates sub-second precision: the microsecond field
never influences the output. -/
theorem format_dt_microsecond (dt : PyDatetime) (us : Nat) :
    format_dt { dt with microsecond := us } = format_dt dt := by
  rw [format_dt, format_dt, shiftToUTC_microsecond]

/-! ## The document assemblers -/

/-- The final join: CRLF between lines and one trailing CRLF. -/
def crlfJoin : List String → String
  | [] => "\r\n"
  | [l] => l ++ "\r\n"
  | l :: rest => l ++ "\r\n" ++ crlfJoin rest

/-- The merged description (both arguments already escaped): when a URL
is present, append the literal `\n\nJoin link: <url>` text and strip
surrounding whitespace. -/
def mergeDescUrl (description url : String) : String :=
  if url = "" then description
  else pyStrip (description ++ "\\n\\nJoin link: " ++ url)

/-- The invite attendee loop body: skip entries whose e-mail is blank
after stripping, default the display name to the e-mail, escape it, and
emit the `ATTENDEE` line with the given role plus
`PARTSTAT=NEEDS-ACTION;RSVP=TRUE`. -/
def attendeeLines (role : String) (atts : List (String × String)) : List String :=
  atts.filterMap (fun p =>
    let email := pyStrip p.1
    if email = "" then none
    else some ("ATTENDEE;CN=" ++ escapeIcs (if p.2 = "" then email else p.2) ++
      ";ROLE=" ++ role ++ ";PARTSTAT=NEEDS-ACTION;RSVP=TRUE:mailto:" ++ email))

/-- The cancellation attendee loop body: same skipping and naming, but
the emitted line carries only `CN` and `ROLE`. -/
def cancelAttendeeLines (role : String) (atts : List (String × String)) : List String :=
  atts.filterMap (fun p =>
    let email := pyStrip p.1
    if email = "" then none
    else some ("ATTENDEE;CN=" ++ escapeIcs (if p.2 = "" then email else p.2) ++
      ";ROLE=" ++ role ++ ":mailto:" ++ email))

/-- The `lines` list assembled by `build_ics_invite` after validation.
`uid` is the final identifier and `now` the captured current instant. -/
def inviteLines (organizer_email organizer_name : String)
    (required_attendees optional_attendees : List (String × String))
    (summary description : String) (dtstart_utc dtend_utc : PyDatetime)
    (location url : String) (uid : String) (now : PyDatetime) : List String :=
  let urlE := escapeIcs url
  ["BEGIN:VCALENDAR",
   "PRODID:-//PowerDash HR//Interview Scheduler//EN",
   "VERSION:2.0",
   "CALSCALE:GREGORIAN",
   "METHOD:REQUEST",
   "BEGIN:VEVENT",
   "UID:" ++ uid,
   "DTSTAMP:" ++ format_dt now,
   "DTSTART:" ++ format_dt dtstart_utc,
   "DTEND:" ++ format_dt dtend_utc,
   "SUMMARY:" ++ escapeIcs summary,
   "DESCRIPTION:" ++ mergeDescUrl (escapeIcs description) urlE,
   "LOCATION:" ++ escapeIcs location,
   "STATUS:CONFIRMED",
   "TRANSP:OPAQUE",
   "ORGANIZER;CN=" ++ escapeIcs organizer_name ++ ":mailto:" ++ organizer_email]
  ++ attendeeLines "REQ-PARTICIPANT" required_attendees
  ++ attendeeLines "OPT-PARTICIPANT" optional_attendees
  ++ (if urlE = "" then [] else ["URL:" ++ urlE])
  ++ ["BEGIN:VALARM", "TRIGGER:-PT15M", "ACTION:DISPLAY",
      "DESCRIPTION:Interview Reminder", "END:VALARM"]
  ++ ["END:VEVENT", "END:VCALENDAR"]

/-- `uid = f"{uuid.uuid4()}@powerdashhr.com" if uid is None else uid`:
the identifier actually emitted. -/
def emittedUid (uid : Option String) (uuid4 : String) : String :=
  match uid with
  | none => uuid4 ++ "@powerdashhr.com"
  | some u => u

/-- Placeholder datetime read behind an already-refuted `is None` check. -/
def dummyDT : PyDatetime := ⟨1, 1, 1, 0, 0, 0, 0, none⟩

/-- `build_ics_invite` from `ics_utils.py`.  The current instant
(`datetime.now(timezone.utc)`) and the fresh random token
(`uuid.uuid4()`) are explicit inputs of the model; raising
`ICSValidationError` is `Except.error`; the returned UTF-8 byte payload
is modelled by its text. -/
def build_ics_invite (organizer_email organizer_name : String)
    (required_attendees optional_attendees : List (String × String))
    (summary description : String)
    (dtstart_utc dtend_utc : Option PyDatetime)
    (location url : String) (uid : Option String)
    (now : PyDatetime) (uuid4 : String) : Except String String :=
  if organizer_email = "" then .error "Organizer email is required"
  else if summary = "" then .error "Summary is required"
  else if dtstart_utc = none ∨ dtend_utc = none then
    .error "Start and end times are required"
  else
    .ok (crlfJoin (inviteLines organizer_email organizer_name
      required_attendees optional_attendees summary description
      (dtstart_utc.getD dummyDT) (dtend_utc.getD dummyDT)
      location url (emittedUid uid uuid4) now))

/-- The backwards-compatible wrapper dataclass `ICSInvite`. -/
structure ICSInvite where
  organizer_email : String
  organizer_name : String
  attendee_emails : List String
  summary : String
  description : String
  dtstart_utc : Option PyDatetime
  dtend_utc : Option PyDatetime
  location : String
  url : String
  uid : Option String

/-- `ICSInvite.to_bytes`: forwards to `build_ics_invite` with each
attendee e-mail doubling as its display name and no optional attendees. -/
def ICSInvite.to_bytes (inv : ICSInvite) (now : PyDatetime) (uuid4 : String) :
    Except String String :=
  build_ics_invite inv.organizer_email inv.organizer_name
    (inv.attendee_emails.map (fun e => (e, e))) []
    inv.summary inv.description inv.dtstart_utc inv.dtend_utc
    inv.location inv.url inv.uid now uuid4

/-- `create_ics_from_interview`, as evidently intended: derive a stable
identifier from a truthy `uid_seed` (via `stable_uid` with its default
domain) and forward everything to `build_ics_invite`.  In the committed
file the closing parenthesis of this call was displaced to the last
line of the module, a syntax slip; the argument list itself is
unambiguous. -/
def create_ics_from_interview (organizer_email organizer_name : String)
    (attendees optional_attendees : List (String × String))
    (summary description : String)
    (start_utc end_utc : Option PyDatetime)
    (location join_url : String) (uid_seed : Option String)
    (now : PyDatetime) (uuid4 : String) : Except String String :=
  let uidRes : Except String (Option String) :=
    match uid_seed with
    | some s =>
      if s = "" then .ok none
      else (stable_uid s "powerdashhr.com").map some
    | none => .ok none
  uidRes.bind (fun uid =>
    build_ics_invite organizer_email organizer_name attendees
      optional_attendees summary description start_utc end_utc
      location join_url uid now uuid4)

/-- The `lines` list assembled by `generate_cancellation_ics`. -/
def cancellationLines (organizer_email organizer_name : String)
    (attendees optional_attendees : List (String × String))
    (summary description : String) (start_utc end_utc : PyDatetime)
    (uid : String) (sequence : Int) (location url : String)
    (now : PyDatetime) : List String :=
  let urlE := escapeIcs url
  ["BEGIN:VCALENDAR",
   "PRODID:-//PowerDash HR//Interview Scheduler//EN",
   "VERSION:2.0",
   "CALSCALE:GREGORIAN",
   "METHOD:CANCEL",
   "BEGIN:VEVENT",
   "UID:" ++ uid,
   "SEQUENCE:" ++ toString sequence,
   "DTSTAMP:" ++ format_dt now,
   "DTSTART:" ++ format_dt start_utc,
   "DTEND:" ++ format_dt end_utc,
   "SUMMARY:" ++ escapeIcs summary,
   "DESCRIPTION:" ++ mergeDescUrl (escapeIcs description) urlE,
   "LOCATION:" ++ escapeIcs location,
   "STATUS:CANCELLED",
   "ORGANIZER;CN=" ++ escapeIcs organizer_name ++ ":mailto:" ++ organizer_email]
  ++ cancelAttendeeLines "REQ-PARTICIPANT" attendees
  ++ cancelAttendeeLines "OPT-PARTICIPANT" optional_attendees
  ++ (if urlE = "" then [] else ["URL:" ++ urlE])
  ++ ["END:VEVENT", "END:VCALENDAR"]

/-- `generate_cancellation_ics` from `ics_utils.py` (`METHOD:CANCEL`). -/
def generate_cancellation_ics (organizer_email organizer_name : String)
    (attendees optional_attendees : List (String × String))
    (summary description : String) (start_utc end_utc : PyDatetime)
    (uid : String) (sequence : Int) (location url : String)
    (now : PyDatetime) : Except String String :=
  if uid = "" then .error "UID is required to cancel an invite"
  else .ok (crlfJoin (cancellationLines organizer_email organizer_name
    attendees optional_attendees summary description start_utc end_utc
    uid sequence location url now))

/-! ## Structural lemmas about the assembled line lists -/

theorem str_append_head (a b : String) (x : Char)
    (hx : a.data.head? = some x) : (a ++ b).data.head? = some x := by
  rw [String.data_append]
  cases ha : a.data with
  | nil => rw [ha] at hx; exact absurd hx (by simp)
  | cons c t =>
    rw [ha] at hx
    simpa using hx

theorem ne_of_head (s t : String) (h : s.data.head? ≠ t.data.head?) :
    s ≠ t := fun he => h (he ▸ rfl)

theorem isPrefixOf_false_of_head_ne (p : List Char) (l : List Char)
    (x y : Char) (hp : p.head? = some x) (hl : l.head? = some y)
    (hxy : x ≠ y) : p.isPrefixOf l = false := by
  cases p with
  | nil => simp at hp
  | cons a p' =>
    cases l with
    | nil => simp [List.isPrefixOf]
    | cons b l' =>
      simp only [List.head?_cons, Option.some.injEq] at hp hl
      subst hp hl
      simp [List.isPrefixOf, hxy]

theorem crlfJoin_data (L : List String) (hL : L ≠ []) :
    (crlfJoin L).data = (L.map (fun l => l.data ++ ['\x0d', '\n'])).flatten := by
  induction L with
  | nil => exact absurd rfl hL
  | cons l rest ih =>
    cases rest with
    | nil =>
      show (l ++ "\x0d\n").data = _
      simp [String.data_append]
    | cons l2 rest2 =>
      show (l ++ "\x0d\n" ++ crlfJoin (l2 :: rest2)).data = _
      rw [String.data_append, String.data_append, ih (by simp)]
      simp

theorem crlfJoin_isPrefix (l : String) (rest : List String) :
    l.data <+: (crlfJoin (l :: rest)).data := by
  rw [crlfJoin_data _ (by simp)]
  simp only [List.map_cons, List.flatten_cons]
  exact ⟨['\x0d', '\n'] ++ (rest.map (fun l => l.data ++ ['\x0d', '\n'])).flatten, by simp⟩

theorem crlfJoin_isSuffix (L : List String) (l : String) :
    (l ++ "\x0d\n").data <:+ (crlfJoin (L ++ [l])).data := by
  rw [crlfJoin_data _ (by simp)]
  rw [List.map_append, List.flatten_append]
  exact ⟨(L.map (fun l => l.data ++ ['\x0d', '\n'])).flatten, by simp [String.data_append]⟩

theorem mem_attendeeLines (role : String) (atts : List (String × String))
    (l : String) (hl : l ∈ attendeeLines role atts) :
    ∃ p ∈ atts, pyStrip p.1 ≠ "" ∧
      l = "ATTENDEE;CN=" ++ escapeIcs (if p.2 = "" then pyStrip p.1 else p.2) ++
        ";ROLE=" ++ role ++ ";PARTSTAT=NEEDS-ACTION;RSVP=TRUE:mailto:" ++ pyStrip p.1 := by
  rw [attendeeLines, List.mem_filterMap] at hl
  obtain ⟨p, hp, hsome⟩ := hl
  by_cases he : pyStrip p.1 = ""
  · simp [he] at hsome
  · refine ⟨p, hp, he, ?_⟩
    simp only [he, if_neg, ite_false] at hsome
    exact (Option.some.injEq _ _ ▸ hsome).symm

theorem mem_cancelAttendeeLines (role : String) (atts : List (String × String))
    (l : String) (hl : l ∈ cancelAttendeeLines role atts) :
    ∃ p ∈ atts, pyStrip p.1 ≠ "" ∧
      l = "ATTENDEE;CN=" ++ escapeIcs (if p.2 = "" then pyStrip p.1 else p.2) ++
        ";ROLE=" ++ role ++ ":mailto:" ++ pyStrip p.1 := by
  rw [cancelAttendeeLines, List.mem_filterMap] at hl
  obtain ⟨p, hp, hsome⟩ := hl
  by_cases he : pyStrip p.1 = ""
  · simp [he] at hsome
  · refine ⟨p, hp, he, ?_⟩
    simp only [he, if_neg, ite_false] at hsome
    exact (Option.some.injEq _ _ ▸ hsome).symm

theorem attendeeLines_head (role : String) (atts : List (String × String))
    (l : String) (hl : l ∈ attendeeLines role atts) :
    l.data.head? = some 'A' := by
  obtain ⟨p, _, _, rfl⟩ := mem_attendeeLines role atts l hl
  apply str_append_head
  apply str_append_head
  apply str_append_head
  apply str_append_head
  apply str_append_head
  rfl

theorem cancelAttendeeLines_head (role : String) (atts : List (String × String))
    (l : String) (hl : l ∈ cancelAttendeeLines role atts) :
    l.data.head? = some 'A' := by
  obtain ⟨p, _, _, rfl⟩ := mem_cancelAttendeeLines role atts l hl
  apply str_append_head
  apply str_append_head
  apply str_append_head
  apply str_append_head
  rfl

theorem not_mem_attendeeLines (role : String) (atts : List (String × String))
    (s : String) (hs : s.data.head? ≠ some 'A') :
    s ∉ attendeeLines role atts :=
  fun h => hs (attendeeLines_head role atts s h)

theorem not_mem_cancelAttendeeLines (role : String) (atts : List (String × String))
    (s : String) (hs : s.data.head? ≠ some 'A') :
    s ∉ cancelAttendeeLines role atts :=
  fun h => hs (cancelAttendeeLines_head role atts s h)

theorem escChar_no_newline (l : List Char) : '\n' ∉ l.flatMap escChar := by
  intro h
  rw [List.mem_flatMap] at h
  obtain ⟨x, _, hx⟩ := h
  by_cases h1 : x = '\\'
  · subst h1; simp [escChar] at hx
  · by_cases h2 : x = ';'
    · subst h2; simp [escChar] at hx
    · by_cases h3 : x = ','
      · subst h3; simp [escChar] at hx
      · by_cases h4 : x = '\n'
        · subst h4; simp [escChar] at hx
        · simp [escChar, h1, h2, h3, h4] at hx
          exact h4 hx.symm

/-! ## The claims -/

/-- C1: for every non-empty seed and every domain, `stable_uid` is a
deterministic pure function returning the fixed-length (32 hex digit)
MD5 digest of the seed, followed by `@` and the domain. -/
theorem stable_uid_deterministic_digest (seed domain : String) (h : seed ≠ "") :
    stable_uid seed domain = .ok (md5hex seed ++ "@" ++ domain) ∧
      (∀ seed2 domain2, seed2 = seed → domain2 = domain →
        stable_uid seed2 domain2 = stable_uid seed domain) ∧
      (md5hex seed).length = 32 ∧
      (∀ c ∈ (md5hex seed).data, c ∈ hexDigits) := by
  refine ⟨?_, ?_, md5hex_length seed, md5hex_hex seed⟩
  · rw [stable_uid, if_neg h]
  · rintro s2 d2 rfl rfl
    rfl

/-- Witness for C1 at a concrete seed and domain. -/
theorem stable_uid_deterministic_digest_witness :
    ("interview-42" : String) ≠ "" ∧
      stable_uid "interview-42" "powerdashhr.com"
        = .ok (md5hex "interview-42" ++ "@" ++ "powerdashhr.com") :=
  ⟨by decide, (stable_uid_deterministic_digest "interview-42" "powerdashhr.com"
    (by decide)).1⟩

/-- C4: the escaping function equals the spec's reference substitution
chain, its output never contains a raw unescaped backslash, semicolon,
comma or newline (in particular no newline character at all), empty
input yields the empty string without error, and it is a pure function
of its input. -/
theorem escape_text_matches_spec (s : String) :
    escapeIcs s = escape_text_spec s ∧
      hasRawSpecial (escapeIcs s).data = false ∧
      '\n' ∉ (escapeIcs s).data ∧
      escapeIcs "" = "" ∧
      (∀ t, t = s → escapeIcs t = escapeIcs s) := by
  refine ⟨?_, ?_, ?_, rfl, fun t ht => ht ▸ rfl⟩
  · rw [escapeIcs_flatMap, escape_text_spec_flatMap]
  · rw [escapeIcs_flatMap]
    exact hasRawSpecial_escChar s.data
  · rw [escapeIcs_flatMap]
    exact escChar_no_newline s.data

/-- C5: `_format_dt` produces the 16-character `YYYYMMDDTHHMMSSZ` basic
format, treats naive datetimes as already UTC, converts aware datetimes
to UTC (preserving the denoted instant) before formatting, and truncates
sub-second precision. -/
theorem format_dt_spec (dt : PyDatetime) (hv : ValidDT dt)
    (hy1 : 1 ≤ (shiftToUTC dt).year) (hy2 : (shiftToUTC dt).year ≤ 9999) :
    ((format_dt dt).data.length = 16 ∧
      (format_dt dt).data.getD 8 ' ' = 'T' ∧
      (format_dt dt).data.getD 15 ' ' = 'Z' ∧
      (∀ c ∈ (format_dt dt).data.take 8, c.isDigit = true) ∧
      (∀ c ∈ ((format_dt dt).data.drop 9).take 6, c.isDigit = true)) ∧
    (dt.tzOffsetMinutes = none →
      shiftToUTC dt = { dt with tzOffsetMinutes := some 0 }) ∧
    ((shiftToUTC dt).tzOffsetMinutes = some 0 ∧
      instantMinutes (shiftToUTC dt) = instantMinutes dt ∧
      (shiftToUTC dt).second = dt.second) ∧
    (∀ us, format_dt { dt with microsecond := us } = format_dt dt) := by
  obtain ⟨hins, hsec, hus, htz⟩ := shiftToUTC_instant dt hv
  obtain ⟨hmo, hd, hh, hmi, hs⟩ := shiftToUTC_bounds dt hv
  refine ⟨?_, ?_, ⟨htz, hins, hsec⟩, fun us => format_dt_microsecond dt us⟩
  · refine ⟨rfl, rfl, rfl, ?_, ?_⟩
    · intro c hc
      have htake : (format_dt dt).data.take 8
          = pad4 (shiftToUTC dt).year ++ pad2 (shiftToUTC dt).month
            ++ pad2 (shiftToUTC dt).day := rfl
      rw [htake] at hc
      rcases List.mem_append.mp hc with hc | hc
      · rcases List.mem_append.mp hc with hc | hc
        · exact pad4_digits _ hy2 c hc
        · exact pad2_digits _ (by omega) c hc
      · exact pad2_digits _ (by omega) c hc
    · intro c hc
      have htake : ((format_dt dt).data.drop 9).take 6
          = pad2 (shiftToUTC dt).hour ++ pad2 (shiftToUTC dt).minute
            ++ pad2 (shiftToUTC dt).second := rfl
      rw [htake] at hc
      rcases List.mem_append.mp hc with hc | hc
      · rcases List.mem_append.mp hc with hc | hc
        · exact pad2_digits _ (by omega) c hc
        · exact pad2_digits _ (by omega) c hc
      · exact pad2_digits _ (by omega) c hc
  · intro hnone
    rw [shiftToUTC, hnone]

/-- Witness for C5 at a concrete aware datetime that crosses a day
boundary under conversion. -/
theorem format_dt_spec_witness :
    ValidDT ⟨2024, 2, 29, 23, 45, 12, 999999, some (-30)⟩ ∧
      1 ≤ (shiftToUTC ⟨2024, 2, 29, 23, 45, 12, 999999, some (-30)⟩).year ∧
      (shiftToUTC ⟨2024, 2, 29, 23, 45, 12, 999999, some (-30)⟩).year ≤ 9999 ∧
      instantMinutes (shiftToUTC ⟨2024, 2, 29, 23, 45, 12, 999999, some (-30)⟩)
        = instantMinutes ⟨2024, 2, 29, 23, 45, 12, 999999, some (-30)⟩ :=
  ⟨by decide, by decide, by decide,
    (format_dt_spec ⟨2024, 2, 29, 23, 45, 12, 999999, some (-30)⟩
      (by decide) (by decide) (by decide)).2.2.1.2.1⟩

/-- C3: across the public interface, a validation error is raised if and
only if the invite builder gets an empty organizer e-mail, an empty
summary, or a missing start or end; `stable_uid` gets an empty seed; or
the cancellation builder gets an empty identifier.  (In the `Except`
model an error excludes any output, and the if-and-only-if shows every
other input is accepted.) -/
theorem validation_error_iff :
    (∀ oe onm req opt su de ds dnd loc url uid now uuid4,
      (∃ e, build_ics_invite oe onm req opt su de ds dnd loc url uid now uuid4
          = .error e) ↔ (oe = "" ∨ su = "" ∨ ds = none ∨ dnd = none)) ∧
    (∀ seed domain, (∃ e, stable_uid seed domain = .error e) ↔ seed = "") ∧
    (∀ oe onm atts opts su de st en uid sq loc url now,
      (∃ e, generate_cancellation_ics oe onm atts opts su de st en uid sq loc url now
          = .error e) ↔ uid = "") := by
  refine ⟨?_, ?_, ?_⟩
  · intro oe onm req opt su de ds dnd loc url uid now uuid4
    constructor
    · intro ⟨e, he⟩
      by_contra hno
      push_neg at hno
      obtain ⟨h1, h2, h3, h4⟩ := hno
      rw [build_ics_invite, if_neg h1, if_neg h2,
        if_neg (by simp [h3, h4])] at he
      exact Except.noConfusion he
    · intro h
      by_cases h1 : oe = ""
      · exact ⟨"Organizer email is required", by rw [build_ics_invite, if_pos h1]⟩
      · by_cases h2 : su = ""
        · exact ⟨"Summary is required",
            by rw [build_ics_invite, if_neg h1, if_pos h2]⟩
        · have h34 : ds = none ∨ dnd = none := by
            rcases h with h | h | h | h
            · exact absurd h h1
            · exact absurd h h2
            · exact Or.inl h
            · exact Or.inr h
          exact ⟨"Start and end times are required",
            by rw [build_ics_invite, if_neg h1, if_neg h2, if_pos h34]⟩
  · intro seed domain
    constructor
    · intro ⟨e, he⟩
      by_contra hne
      simp [stable_uid, hne] at he
    · intro h
      subst h
      exact ⟨_, rfl⟩
  · intro oe onm atts opts su de st en uid sq loc url now
    constructor
    · intro ⟨e, he⟩
      by_contra hne
      simp [generate_cancellation_ics, hne] at he
    · intro h
      subst h
      exact ⟨_, rfl⟩

theorem ne_of_append_head (a b t : String) (x y : Char)
    (ha : a.data.head? = some x) (ht : t.data.head? = some y) (hxy : x ≠ y) :
    (a ++ b) ≠ t :=
  ne_of_head _ _ (by rw [str_append_head a b x ha, ht]; simp [hxy])

theorem count_inviteLines_beginVevent (oe onm : String)
    (req opt : List (String × String)) (su de : String) (t1 t2 : PyDatetime)
    (loc url : String) (u : String) (now : PyDatetime) :
    (inviteLines oe onm req opt su de t1 t2 loc url u now).count "BEGIN:VEVENT"
      = 1 := by
  have hU := ne_of_append_head "UID:" u "BEGIN:VEVENT" 'U' 'B' rfl rfl (by decide)
  have hDS := ne_of_append_head "DTSTAMP:" (format_dt now) "BEGIN:VEVENT" 'D' 'B' rfl rfl (by decide)
  have hD1 := ne_of_append_head "DTSTART:" (format_dt t1) "BEGIN:VEVENT" 'D' 'B' rfl rfl (by decide)
  have hD2 := ne_of_append_head "DTEND:" (format_dt t2) "BEGIN:VEVENT" 'D' 'B' rfl rfl (by decide)
  have hSU := ne_of_append_head "SUMMARY:" (escapeIcs su) "BEGIN:VEVENT" 'S' 'B' rfl rfl (by decide)
  have hDE := ne_of_append_head "DESCRIPTION:" (mergeDescUrl (escapeIcs de) (escapeIcs url)) "BEGIN:VEVENT" 'D' 'B' rfl rfl (by decide)
  have hLO := ne_of_append_head "LOCATION:" (escapeIcs loc) "BEGIN:VEVENT" 'L' 'B' rfl rfl (by decide)
  have hOR := ne_of_append_head ("ORGANIZER;CN=" ++ escapeIcs onm ++ ":mailto:") oe "BEGIN:VEVENT" 'O' 'B'
    (str_append_head _ _ 'O' (str_append_head _ _ 'O' rfl)) rfl (by decide)
  have hreq : (attendeeLines "REQ-PARTICIPANT" req).count "BEGIN:VEVENT" = 0 :=
    List.count_eq_zero.mpr (not_mem_attendeeLines _ _ _ (by decide))
  have hopt : (attendeeLines "OPT-PARTICIPANT" opt).count "BEGIN:VEVENT" = 0 :=
    List.count_eq_zero.mpr (not_mem_attendeeLines _ _ _ (by decide))
  have hurl : ((if escapeIcs url = "" then [] else ["URL:" ++ escapeIcs url]) :
      List String).count "BEGIN:VEVENT" = 0 := by
    by_cases h : escapeIcs url = ""
    · simp [h]
    · rw [if_neg h, List.count_cons_of_ne
        (Ne.symm (ne_of_append_head "URL:" (escapeIcs url) "BEGIN:VEVENT" 'U' 'B' rfl rfl (by decide))),
        List.count_nil]
  show (_ ++ attendeeLines "REQ-PARTICIPANT" req
      ++ attendeeLines "OPT-PARTICIPANT" opt ++ _ ++ _ ++ _).count _ = 1
  rw [List.count_append, List.count_append, List.count_append,
    List.count_append, List.count_append, hreq, hopt, hurl]
  rw [List.count_cons_of_ne (by decide), List.count_cons_of_ne (by decide),
    List.count_cons_of_ne (by decide), List.count_cons_of_ne (by decide),
    List.count_cons_of_ne (by decide), List.count_cons_self,
    List.count_cons_of_ne (Ne.symm hU), List.count_cons_of_ne (Ne.symm hDS),
    List.count_cons_of_ne (Ne.symm hD1), List.count_cons_of_ne (Ne.symm hD2),
    List.count_cons_of_ne (Ne.symm hSU), List.count_cons_of_ne (Ne.symm hDE),
    List.count_cons_of_ne (Ne.symm hLO), List.count_cons_of_ne (by decide),
    List.count_cons_of_ne (by decide), List.count_cons_of_ne (Ne.symm hOR),
    List.count_nil]
  decide

theorem count_inviteLines_endVevent (oe onm : String)
    (req opt : List (String × String)) (su de : String) (t1 t2 : PyDatetime)
    (loc url : String) (u : String) (now : PyDatetime) :
    (inviteLines oe onm req opt su de t1 t2 loc url u now).count "END:VEVENT"
      = 1 := by
  have hU := ne_of_append_head "UID:" u "END:VEVENT" 'U' 'E' rfl rfl (by decide)
  have hDS := ne_of_append_head "DTSTAMP:" (format_dt now) "END:VEVENT" 'D' 'E' rfl rfl (by decide)
  have hD1 := ne_of_append_head "DTSTART:" (format_dt t1) "END:VEVENT" 'D' 'E' rfl rfl (by decide)
  have hD2 := ne_of_append_head "DTEND:" (format_dt t2) "END:VEVENT" 'D' 'E' rfl rfl (by decide)
  have hSU := ne_of_append_head "SUMMARY:" (escapeIcs su) "END:VEVENT" 'S' 'E' rfl rfl (by decide)
  have hDE := ne_of_append_head "DESCRIPTION:" (mergeDescUrl (escapeIcs de) (escapeIcs url)) "END:VEVENT" 'D' 'E' rfl rfl (by decide)
  have hLO := ne_of_append_head "LOCATION:" (escapeIcs loc) "END:VEVENT" 'L' 'E' rfl rfl (by decide)
  have hOR := ne_of_append_head ("ORGANIZER;CN=" ++ escapeIcs onm ++ ":mailto:") oe "END:VEVENT" 'O' 'E'
    (str_append_head _ _ 'O' (str_append_head _ _ 'O' rfl)) rfl (by decide)
  have hreq : (attendeeLines "REQ-PARTICIPANT" req).count "END:VEVENT" = 0 :=
    List.count_eq_zero.mpr (not_mem_attendeeLines _ _ _ (by decide))
  have hopt : (attendeeLines "OPT-PARTICIPANT" opt).count "END:VEVENT" = 0 :=
    List.count_eq_zero.mpr (not_mem_attendeeLines _ _ _ (by decide))
  have hurl : ((if escapeIcs url = "" then [] else ["URL:" ++ escapeIcs url]) :
      List String).count "END:VEVENT" = 0 := by
    by_cases h : escapeIcs url = ""
    · simp [h]
    · rw [if_neg h, List.count_cons_of_ne
        (Ne.symm (ne_of_append_head "URL:" (escapeIcs url) "END:VEVENT" 'U' 'E' rfl rfl (by decide))),
        List.count_nil]
  show (_ ++ attendeeLines "REQ-PARTICIPANT" req
      ++ attendeeLines "OPT-PARTICIPANT" opt ++ _ ++ _ ++ _).count _ = 1
  rw [List.count_append, List.count_append, List.count_append,
    List.count_append, List.count_append, hreq, hopt, hurl]
  rw [List.count_cons_of_ne (by decide), List.count_cons_of_ne (by decide),
    List.count_cons_of_ne (by decide), List.count_cons_of_ne (by decide),
    List.count_cons_of_ne (by decide), List.count_cons_of_ne (by decide),
    List.count_cons_of_ne (Ne.symm hU), List.count_cons_of_ne (Ne.symm hDS),
    List.count_cons_of_ne (Ne.symm hD1), List.count_cons_of_ne (Ne.symm hD2),
    List.count_cons_of_ne (Ne.symm hSU), List.count_cons_of_ne (Ne.symm hDE),
    List.count_cons_of_ne (Ne.symm hLO), List.count_cons_of_ne (by decide),
    List.count_cons_of_ne (by decide), List.count_cons_of_ne (Ne.symm hOR),
    List.count_nil]
  decide

/-- C2: for valid inputs, the invite builder succeeds and its output is
the CRLF-join of a line list that starts with `BEGIN:VCALENDAR`, ends
with `END:VCALENDAR` + CRLF, has every line CRLF-terminated, contains
exactly one `BEGIN:VEVENT`/`END:VEVENT` pair, decomposes in the fixed
field order (calendar header, event identifier/timestamp/timing/content/
organizer, required-then-optional attendees, URL if present, reminder,
footers), and always carries the 15-minute `VALARM` block. -/
theorem build_invite_document_structure
    (oe onm : String) (req opt : List (String × String)) (su de : String)
    (t1 t2 : PyDatetime) (loc url : String) (uid : Option String)
    (now : PyDatetime) (uuid4 : String) (hoe : oe ≠ "") (hsu : su ≠ "") :
    ∃ L : List String,
      build_ics_invite oe onm req opt su de (some t1) (some t2) loc url uid
          now uuid4 = .ok (crlfJoin L) ∧
      (crlfJoin L).data = (L.map (fun l => l.data ++ ['\x0d', '\n'])).flatten ∧
      "BEGIN:VCALENDAR".data <+: (crlfJoin L).data ∧
      ("END:VCALENDAR" ++ "\x0d\n").data <:+ (crlfJoin L).data ∧
      L.count "BEGIN:VEVENT" = 1 ∧ L.count "END:VEVENT" = 1 ∧
      L = ["BEGIN:VCALENDAR", "PRODID:-//PowerDash HR//Interview Scheduler//EN",
            "VERSION:2.0", "CALSCALE:GREGORIAN", "METHOD:REQUEST", "BEGIN:VEVENT",
            "UID:" ++ emittedUid uid uuid4, "DTSTAMP:" ++ format_dt now,
            "DTSTART:" ++ format_dt t1, "DTEND:" ++ format_dt t2,
            "SUMMARY:" ++ escapeIcs su,
            "DESCRIPTION:" ++ mergeDescUrl (escapeIcs de) (escapeIcs url),
            "LOCATION:" ++ escapeIcs loc, "STATUS:CONFIRMED", "TRANSP:OPAQUE",
            "ORGANIZER;CN=" ++ escapeIcs onm ++ ":mailto:" ++ oe]
          ++ attendeeLines "REQ-PARTICIPANT" req
          ++ attendeeLines "OPT-PARTICIPANT" opt
          ++ (if escapeIcs url = "" then [] else ["URL:" ++ escapeIcs url])
          ++ ["BEGIN:VALARM", "TRIGGER:-PT15M", "ACTION:DISPLAY",
              "DESCRIPTION:Interview Reminder", "END:VALARM"]
          ++ ["END:VEVENT", "END:VCALENDAR"] ∧
      "BEGIN:VALARM" ∈ L := by
  refine ⟨inviteLines oe onm req opt su de t1 t2 loc url
    (emittedUid uid uuid4) now, ?_, ?_, ?_, ?_, ?_, ?_, rfl, ?_⟩
  · rw [build_ics_invite, if_neg hoe, if_neg hsu, if_neg (by simp)]
    rfl
  · exact crlfJoin_data _ (by simp [inviteLines])
  · exact crlfJoin_isPrefix "BEGIN:VCALENDAR" _
  · have hdec : inviteLines oe onm req opt su de t1 t2 loc url
        (emittedUid uid uuid4) now
        = (["BEGIN:VCALENDAR", "PRODID:-//PowerDash HR//Interview Scheduler//EN",
            "VERSION:2.0", "CALSCALE:GREGORIAN", "METHOD:REQUEST", "BEGIN:VEVENT",
            "UID:" ++ emittedUid uid uuid4, "DTSTAMP:" ++ format_dt now,
            "DTSTART:" ++ format_dt t1, "DTEND:" ++ format_dt t2,
            "SUMMARY:" ++ escapeIcs su,
            "DESCRIPTION:" ++ mergeDescUrl (escapeIcs de) (escapeIcs url),
            "LOCATION:" ++ escapeIcs loc, "STATUS:CONFIRMED", "TRANSP:OPAQUE",
            "ORGANIZER;CN=" ++ escapeIcs onm ++ ":mailto:" ++ oe]
          ++ attendeeLines "REQ-PARTICIPANT" req
          ++ attendeeLines "OPT-PARTICIPANT" opt
          ++ (if escapeIcs url = "" then [] else ["URL:" ++ escapeIcs url])
          ++ ["BEGIN:VALARM", "TRIGGER:-PT15M", "ACTION:DISPLAY",
              "DESCRIPTION:Interview Reminder", "END:VALARM"]
          ++ ["END:VEVENT"]) ++ ["END:VCALENDAR"] := by
      simp [inviteLines]
    rw [hdec]
    exact crlfJoin_isSuffix _ "END:VCALENDAR"
  · exact count_inviteLines_beginVevent oe onm req opt su de t1 t2 loc url
      (emittedUid uid uuid4) now
  · exact count_inviteLines_endVevent oe onm req opt su de t1 t2 loc url
      (emittedUid uid uuid4) now
  · show "BEGIN:VALARM" ∈ _ ++ attendeeLines "REQ-PARTICIPANT" req ++ _ ++ _ ++ _ ++ _
    simp

/-- Witness for C2 at concrete inputs. -/
theorem build_invite_document_structure_witness :
    ("a@x.com" : String) ≠ "" ∧ ("Interview" : String) ≠ "" ∧
      ∃ L : List String,
        build_ics_invite "a@x.com" "A" [("b@x.com", "B")] [] "Interview"
            "Round 1" (some dummyDT) (some dummyDT) "" "" none dummyDT "tok"
            = .ok (crlfJoin L) ∧
          L.count "BEGIN:VEVENT" = 1 ∧ "BEGIN:VALARM" ∈ L := by
  refine ⟨by decide, by decide, ?_⟩
  obtain ⟨L, h1, _, _, _, h5, _, _, h8⟩ :=
    build_invite_document_structure "a@x.com" "A" [("b@x.com", "B")] []
      "Interview" "Round 1" dummyDT dummyDT "" "" none dummyDT "tok"
      (by decide) (by decide)
  exact ⟨L, h1, h5, h8⟩

/-- The lines of a document that carry the `UID:` field. -/
def uidLines (L : List String) : List String :=
  L.filter (fun l => "UID:".data.isPrefixOf l.data)

/-- C6: in a successfully built invite, the single `UID:` line carries
exactly the supplied identifier when one is given; with no identifier it
carries the freshly generated `<uuid4>@powerdashhr.com`, which is
non-empty, contains `@`, and is scoped to the fixed default domain. -/
theorem build_invite_uid_roundtrip
    (oe onm : String) (req opt : List (String × String)) (su de : String)
    (t1 t2 : PyDatetime) (loc url : String) (uid : Option String)
    (now : PyDatetime) (uuid4 : String) (hoe : oe ≠ "") (hsu : su ≠ "") :
    ∃ L : List String,
      build_ics_invite oe onm req opt su de (some t1) (some t2) loc url uid
          now uuid4 = .ok (crlfJoin L) ∧
      uidLines L = ["UID:" ++ emittedUid uid uuid4] ∧
      (∀ u0, uid = some u0 → emittedUid uid uuid4 = u0) ∧
      (uid = none →
        emittedUid uid uuid4 = uuid4 ++ "@powerdashhr.com" ∧
        emittedUid uid uuid4 ≠ "" ∧
        '@' ∈ (emittedUid uid uuid4).data ∧
        "@powerdashhr.com".data <:+ (emittedUid uid uuid4).data) := by
  refine ⟨inviteLines oe onm req opt su de t1 t2 loc url
    (emittedUid uid uuid4) now, ?_, ?_, ?_, ?_⟩
  · rw [build_ics_invite, if_neg hoe, if_neg hsu, if_neg (by simp)]
    rfl
  · have pUID : ("UID:".data.isPrefixOf ("UID:" ++ emittedUid uid uuid4).data) = true := by
      rw [String.data_append]
      exact (List.isPrefixOf_iff_prefix).mpr (List.prefix_append _ _)
    have pDS : ("UID:".data.isPrefixOf ("DTSTAMP:" ++ format_dt now).data) = false :=
      isPrefixOf_false_of_head_ne _ _ 'U' 'D' rfl (str_append_head _ _ 'D' rfl) (by decide)
    have pD1 : ("UID:".data.isPrefixOf ("DTSTART:" ++ format_dt t1).data) = false :=
      isPrefixOf_false_of_head_ne _ _ 'U' 'D' rfl (str_append_head _ _ 'D' rfl) (by decide)
    have pD2 : ("UID:".data.isPrefixOf ("DTEND:" ++ format_dt t2).data) = false :=
      isPrefixOf_false_of_head_ne _ _ 'U' 'D' rfl (str_append_head _ _ 'D' rfl) (by decide)
    have pSU : ("UID:".data.isPrefixOf ("SUMMARY:" ++ escapeIcs su).data) = false :=
      isPrefixOf_false_of_head_ne _ _ 'U' 'S' rfl (str_append_head _ _ 'S' rfl) (by decide)
    have pDE : ("UID:".data.isPrefixOf
        ("DESCRIPTION:" ++ mergeDescUrl (escapeIcs de) (escapeIcs url)).data) = false :=
      isPrefixOf_false_of_head_ne _ _ 'U' 'D' rfl (str_append_head _ _ 'D' rfl) (by decide)
    have pLO : ("UID:".data.isPrefixOf ("LOCATION:" ++ escapeIcs loc).data) = false :=
      isPrefixOf_false_of_head_ne _ _ 'U' 'L' rfl (str_append_head _ _ 'L' rfl) (by decide)
    have pOR : ("UID:".data.isPrefixOf
        ("ORGANIZER;CN=" ++ escapeIcs onm ++ ":mailto:" ++ oe).data) = false :=
      isPrefixOf_false_of_head_ne _ _ 'U' 'O' rfl
        (str_append_head _ _ 'O' (str_append_head _ _ 'O' (str_append_head _ _ 'O' rfl)))
        (by decide)
    have preq : (attendeeLines "REQ-PARTICIPANT" req).filter
        (fun l => "UID:".data.isPrefixOf l.data) = [] := by
      refine List.filter_eq_nil_iff.mpr (fun l hl => ?_)
      have hf := isPrefixOf_false_of_head_ne "UID:".data l.data 'U' 'A' rfl
        (attendeeLines_head _ _ _ hl) (by decide)
      simp [hf]
    have popt : (attendeeLines "OPT-PARTICIPANT" opt).filter
        (fun l => "UID:".data.isPrefixOf l.data) = [] := by
      refine List.filter_eq_nil_iff.mpr (fun l hl => ?_)
      have hf := isPrefixOf_false_of_head_ne "UID:".data l.data 'U' 'A' rfl
        (attendeeLines_head _ _ _ hl) (by decide)
      simp [hf]
    have purlseg : ((if escapeIcs url = "" then [] else ["URL:" ++ escapeIcs url]) :
        List String).filter (fun l => "UID:".data.isPrefixOf l.data) = [] := by
      by_cases h : escapeIcs url = ""
      · simp [h]
      · rw [if_neg h]
        have pU : ("UID:".data.isPrefixOf ("URL:" ++ escapeIcs url).data) = false := by
          rw [String.data_append]
          rfl
        simp [List.filter_cons, pU]
    have pL1 : ("UID:".data.isPrefixOf "BEGIN:VCALENDAR".data) = false := by decide
    have pL2 : ("UID:".data.isPrefixOf
      "PRODID:-//PowerDash HR//Interview Scheduler//EN".data) = false := by decide
    have pL3 : ("UID:".data.isPrefixOf "VERSION:2.0".data) = false := by decide
    have pL4 : ("UID:".data.isPrefixOf "CALSCALE:GREGORIAN".data) = false := by decide
    have pL5 : ("UID:".data.isPrefixOf "METHOD:REQUEST".data) = false := by decide
    have pL6 : ("UID:".data.isPrefixOf "BEGIN:VEVENT".data) = false := by decide
    have pL7 : ("UID:".data.isPrefixOf "STATUS:CONFIRMED".data) = false := by decide
    have pL8 : ("UID:".data.isPrefixOf "TRANSP:OPAQUE".data) = false := by decide
    have pL9 : ("UID:".data.isPrefixOf "BEGIN:VALARM".data) = false := by decide
    have pL10 : ("UID:".data.isPrefixOf "TRIGGER:-PT15M".data) = false := by decide
    have pL11 : ("UID:".data.isPrefixOf "ACTION:DISPLAY".data) = false := by decide
    have pL12 : ("UID:".data.isPrefixOf
      "DESCRIPTION:Interview Reminder".data) = false := by decide
    have pL13 : ("UID:".data.isPrefixOf "END:VALARM".data) = false := by decide
    have pL14 : ("UID:".data.isPrefixOf "END:VEVENT".data) = false := by decide
    have pL15 : ("UID:".data.isPrefixOf "END:VCALENDAR".data) = false := by decide
    show List.filter _ (_ ++ attendeeLines "REQ-PARTICIPANT" req
      ++ attendeeLines "OPT-PARTICIPANT" opt ++ _ ++ _ ++ _) = _
    rw [List.filter_append, List.filter_append, List.filter_append,
      List.filter_append, List.filter_append, preq, popt, purlseg]
    simp [List.filter_cons, pUID, pDS, pD1, pD2, pSU, pDE, pLO, pOR,
      pL1, pL2, pL3, pL4, pL5, pL6, pL7, pL8, pL9, pL10, pL11, pL12,
      pL13, pL14, pL15]
  · rintro u0 rfl
    rfl
  · rintro rfl
    refine ⟨rfl, ?_, ?_, ?_⟩
    · intro hemp
      have h2 : (uuid4 ++ "@powerdashhr.com").data = "".data :=
        congrArg String.data hemp
      rw [String.data_append] at h2
      have h3 : "@powerdashhr.com".data = [] := (List.append_eq_nil.mp h2).2
      exact absurd h3 (by decide)
    · show '@' ∈ (uuid4 ++ "@powerdashhr.com").data
      rw [String.data_append]
      simp
    · show "@powerdashhr.com".data <:+ (uuid4 ++ "@powerdashhr.com").data
      rw [String.data_append]
      exact ⟨uuid4.data, rfl⟩

/-- Witness for C6 at concrete inputs with a supplied identifier. -/
theorem build_invite_uid_roundtrip_witness :
    ("a@x.com" : String) ≠ "" ∧ ("S" : String) ≠ "" ∧
      ∃ L : List String,
        build_ics_invite "a@x.com" "A" [] [] "S" "" (some dummyDT)
            (some dummyDT) "" "" (some "abc@dom") dummyDT "tok"
            = .ok (crlfJoin L) ∧
          uidLines L = ["UID:" ++ emittedUid (some "abc@dom") "tok"] := by
  refine ⟨by decide, by decide, ?_⟩
  obtain ⟨L, h1, h2, _, _⟩ :=
    build_invite_uid_roundtrip "a@x.com" "A" [] [] "S" "" dummyDT dummyDT
      "" "" (some "abc@dom") dummyDT "tok" (by decide) (by decide)
  exact ⟨L, h1, h2⟩

theorem str_prefix_append (a b : String) : a.data <+: (a ++ b).data := by
  rw [String.data_append]
  exact List.prefix_append _ _

theorem append_ne_of_not_pref (a b t : String)
    (h : (a.data.isPrefixOf t.data) = false) : (a ++ b) ≠ t := by
  intro he
  have hp : a.data <+: t.data := he ▸ str_prefix_append a b
  have htrue := List.isPrefixOf_iff_prefix.mpr hp
  simp [h] at htrue

theorem str_prefix_trans {l : List Char} {a : String} (b : String)
    (h : l <+: a.data) : l <+: (a ++ b).data :=
  h.trans (str_prefix_append a b)

/-- Any string whose value is not prefixed by the given patterns is not a
line of a cancellation document. -/
theorem not_mem_cancellationLines (oe onm : String)
    (atts opts : List (String × String)) (su de : String)
    (st en : PyDatetime) (uid : String) (sq : Int) (loc url : String)
    (now : PyDatetime) (x : String)
    (hfix : x ∉ (["BEGIN:VCALENDAR",
      "PRODID:-//PowerDash HR//Interview Scheduler//EN", "VERSION:2.0",
      "CALSCALE:GREGORIAN", "METHOD:CANCEL", "BEGIN:VEVENT",
      "STATUS:CANCELLED", "END:VEVENT", "END:VCALENDAR"] : List String))
    (h1 : ("UID:".data.isPrefixOf x.data) = false)
    (h2 : ("SEQUENCE:".data.isPrefixOf x.data) = false)
    (h3 : ("DTSTAMP:".data.isPrefixOf x.data) = false)
    (h4 : ("DTSTART:".data.isPrefixOf x.data) = false)
    (h5 : ("DTEND:".data.isPrefixOf x.data) = false)
    (h6 : ("SUMMARY:".data.isPrefixOf x.data) = false)
    (h7 : ("DESCRIPTION:".data.isPrefixOf x.data) = false)
    (h8 : ("LOCATION:".data.isPrefixOf x.data) = false)
    (h9 : ("ORGANIZER;CN=".data.isPrefixOf x.data) = false)
    (h10 : ("ATTENDEE;CN=".data.isPrefixOf x.data) = false)
    (h11 : ("URL:".data.isPrefixOf x.data) = false) :
    x ∉ cancellationLines oe onm atts opts su de st en uid sq loc url now := by
  intro hmem
  simp only [List.mem_cons, List.not_mem_nil, or_false, not_or] at hfix
  obtain ⟨f1, f2, f3, f4, f5, f6, f7, f8, f9⟩ := hfix
  have hmem' : x ∈ (_ ++ cancelAttendeeLines "REQ-PARTICIPANT" atts
      ++ cancelAttendeeLines "OPT-PARTICIPANT" opts ++ _ ++ _ :
      List String) := hmem
  rcases List.mem_append.mp hmem' with hm | hm
  rotate_left
  · rcases List.mem_cons.mp hm with hm | hm
    · exact f8 hm
    · rcases List.mem_cons.mp hm with hm | hm
      · exact f9 hm
      · simp at hm
  rcases List.mem_append.mp hm with hm | hm
  rotate_left
  · by_cases hu : escapeIcs url = ""
    · rw [if_pos hu] at hm
      simp at hm
    · rw [if_neg hu] at hm
      rcases List.mem_singleton.mp hm with rfl
      exact append_ne_of_not_pref "URL:" (escapeIcs url) _ h11 rfl
  rcases List.mem_append.mp hm with hm | hm
  rotate_left
  · obtain ⟨p, _, _, rfl⟩ := mem_cancelAttendeeLines _ _ _ hm
    have hpre := str_prefix_trans (pyStrip p.1) (str_prefix_trans ":mailto:"
      (str_prefix_trans "OPT-PARTICIPANT" (str_prefix_trans ";ROLE="
        (str_prefix_trans (escapeIcs (if p.2 = "" then pyStrip p.1 else p.2))
          (List.prefix_refl "ATTENDEE;CN=".data)))))
    have htrue := List.isPrefixOf_iff_prefix.mpr hpre
    rw [h10] at htrue
    exact Bool.noConfusion htrue
  rcases List.mem_append.mp hm with hm | hm
  rotate_left
  · obtain ⟨p, _, _, rfl⟩ := mem_cancelAttendeeLines _ _ _ hm
    have hpre := str_prefix_trans (pyStrip p.1) (str_prefix_trans ":mailto:"
      (str_prefix_trans "REQ-PARTICIPANT" (str_prefix_trans ";ROLE="
        (str_prefix_trans (escapeIcs (if p.2 = "" then pyStrip p.1 else p.2))
          (List.prefix_refl "ATTENDEE;CN=".data)))))
    have htrue := List.isPrefixOf_iff_prefix.mpr hpre
    rw [h10] at htrue
    exact Bool.noConfusion htrue
  rcases List.mem_cons.mp hm with rfl | hm
  · exact f1 rfl
  rcases List.mem_cons.mp hm with rfl | hm
  · exact f2 rfl
  rcases List.mem_cons.mp hm with rfl | hm
  · exact f3 rfl
  rcases List.mem_cons.mp hm with rfl | hm
  · exact f4 rfl
  rcases List.mem_cons.mp hm with rfl | hm
  · exact f5 rfl
  rcases List.mem_cons.mp hm with rfl | hm
  · exact f6 rfl
  rcases List.mem_cons.mp hm with hm | hm
  · exact append_ne_of_not_pref "UID:" uid _ h1 hm.symm
  rcases List.mem_cons.mp hm with hm | hm
  · exact append_ne_of_not_pref "SEQUENCE:" (toString sq) _ h2 hm.symm
  rcases List.mem_cons.mp hm with hm | hm
  · exact append_ne_of_not_pref "DTSTAMP:" (format_dt now) _ h3 hm.symm
  rcases List.mem_cons.mp hm with hm | hm
  · exact append_ne_of_not_pref "DTSTART:" (format_dt st) _ h4 hm.symm
  rcases List.mem_cons.mp hm with hm | hm
  · exact append_ne_of_not_pref "DTEND:" (format_dt en) _ h5 hm.symm
  rcases List.mem_cons.mp hm with hm | hm
  · exact append_ne_of_not_pref "SUMMARY:" (escapeIcs su) _ h6 hm.symm
  rcases List.mem_cons.mp hm with hm | hm
  · exact append_ne_of_not_pref "DESCRIPTION:" _ _ h7 hm.symm
  rcases List.mem_cons.mp hm with hm | hm
  · exact append_ne_of_not_pref "LOCATION:" (escapeIcs loc) _ h8 hm.symm
  rcases List.mem_cons.mp hm with rfl | hm
  · exact f7 rfl
  rcases List.mem_cons.mp hm with rfl | hm
  · have hpre := str_prefix_trans oe (str_prefix_trans ":mailto:"
      (str_prefix_trans (escapeIcs onm) (List.prefix_refl "ORGANIZER;CN=".data)))
    have htrue := List.isPrefixOf_iff_prefix.mpr hpre
    rw [h9] at htrue
    exact Bool.noConfusion htrue
  · simp at hm

theorem head_attendee_pre_false {l : String} (y : Char)
    (hy : l.data.head? = some y) (hne : 'A' ≠ y)
    (hpre : ("ATTENDEE".data.isPrefixOf l.data) = true) : False := by
  rw [isPrefixOf_false_of_head_ne "ATTENDEE".data l.data 'A' y rfl hy hne] at hpre
  exact Bool.noConfusion hpre

/-- C7: for every non-empty identifier and sequence number, the
cancellation document declares `METHOD:CANCEL` (never `METHOD:REQUEST`),
carries `SEQUENCE:<n>` and `STATUS:CANCELLED` (never `STATUS:CONFIRMED`),
contains no `VALARM` reminder block, and its attendee lines carry only
`CN` and `ROLE` parameters — no `PARTSTAT`. -/
theorem cancellation_structure
    (oe onm : String) (atts opts : List (String × String)) (su de : String)
    (st en : PyDatetime) (uid : String) (sq : Int) (loc url : String)
    (now : PyDatetime) (huid : uid ≠ "") :
    ∃ L : List String,
      generate_cancellation_ics oe onm atts opts su de st en uid sq loc url
          now = .ok (crlfJoin L) ∧
      L = ["BEGIN:VCALENDAR", "PRODID:-//PowerDash HR//Interview Scheduler//EN",
            "VERSION:2.0", "CALSCALE:GREGORIAN", "METHOD:CANCEL", "BEGIN:VEVENT",
            "UID:" ++ uid, "SEQUENCE:" ++ toString sq, "DTSTAMP:" ++ format_dt now,
            "DTSTART:" ++ format_dt st, "DTEND:" ++ format_dt en,
            "SUMMARY:" ++ escapeIcs su,
            "DESCRIPTION:" ++ mergeDescUrl (escapeIcs de) (escapeIcs url),
            "LOCATION:" ++ escapeIcs loc, "STATUS:CANCELLED",
            "ORGANIZER;CN=" ++ escapeIcs onm ++ ":mailto:" ++ oe]
          ++ cancelAttendeeLines "REQ-PARTICIPANT" atts
          ++ cancelAttendeeLines "OPT-PARTICIPANT" opts
          ++ (if escapeIcs url = "" then [] else ["URL:" ++ escapeIcs url])
          ++ ["END:VEVENT", "END:VCALENDAR"] ∧
      "METHOD:CANCEL" ∈ L ∧ "METHOD:REQUEST" ∉ L ∧
      ("SEQUENCE:" ++ toString sq) ∈ L ∧
      "STATUS:CANCELLED" ∈ L ∧ "STATUS:CONFIRMED" ∉ L ∧
      "BEGIN:VALARM" ∉ L ∧ "END:VALARM" ∉ L ∧ "TRIGGER:-PT15M" ∉ L ∧
      (∀ l ∈ L, ("ATTENDEE".data.isPrefixOf l.data) = true →
        ∃ n e, l = "ATTENDEE;CN=" ++ n ++ ";ROLE=" ++ "REQ-PARTICIPANT"
                    ++ ":mailto:" ++ e ∨
               l = "ATTENDEE;CN=" ++ n ++ ";ROLE=" ++ "OPT-PARTICIPANT"
                    ++ ":mailto:" ++ e) := by
  refine ⟨cancellationLines oe onm atts opts su de st en uid sq loc url now,
    ?_, rfl, ?_, ?_, ?_, ?_, ?_, ?_, ?_, ?_, ?_⟩
  · rw [generate_cancellation_ics, if_neg huid]
  · show "METHOD:CANCEL" ∈ (_ ++ cancelAttendeeLines "REQ-PARTICIPANT" atts
      ++ _ ++ _ ++ _ : List String)
    exact List.mem_append_left _ (List.mem_append_left _ (List.mem_append_left _
      (List.mem_append_left _ (by simp))))
  · exact not_mem_cancellationLines _ _ _ _ _ _ _ _ _ _ _ _ _ _ (by decide)
      (by decide) (by decide) (by decide) (by decide) (by decide) (by decide)
      (by decide) (by decide) (by decide) (by decide) (by decide)
  · show ("SEQUENCE:" ++ toString sq) ∈ (_ ++ cancelAttendeeLines
      "REQ-PARTICIPANT" atts ++ _ ++ _ ++ _ : List String)
    exact List.mem_append_left _ (List.mem_append_left _ (List.mem_append_left _
      (List.mem_append_left _ (by simp))))
  · show "STATUS:CANCELLED" ∈ (_ ++ cancelAttendeeLines "REQ-PARTICIPANT" atts
      ++ _ ++ _ ++ _ : List String)
    exact List.mem_append_left _ (List.mem_append_left _ (List.mem_append_left _
      (List.mem_append_left _ (by simp))))
  · exact not_mem_cancellationLines _ _ _ _ _ _ _ _ _ _ _ _ _ _ (by decide)
      (by decide) (by decide) (by decide) (by decide) (by decide) (by decide)
      (by decide) (by decide) (by decide) (by decide) (by decide)
  · exact not_mem_cancellationLines _ _ _ _ _ _ _ _ _ _ _ _ _ _ (by decide)
      (by decide) (by decide) (by decide) (by decide) (by decide) (by decide)
      (by decide) (by decide) (by decide) (by decide) (by decide)
  · exact not_mem_cancellationLines _ _ _ _ _ _ _ _ _ _ _ _ _ _ (by decide)
      (by decide) (by decide) (by decide) (by decide) (by decide) (by decide)
      (by decide) (by decide) (by decide) (by decide) (by decide)
  · exact not_mem_cancellationLines _ _ _ _ _ _ _ _ _ _ _ _ _ _ (by decide)
      (by decide) (by decide) (by decide) (by decide) (by decide) (by decide)
      (by decide) (by decide) (by decide) (by decide) (by decide)
  · intro l hl hpre
    have hl' : l ∈ (_ ++ cancelAttendeeLines "REQ-PARTICIPANT" atts
        ++ cancelAttendeeLines "OPT-PARTICIPANT" opts ++ _ ++ _ :
        List String) := hl
    rcases List.mem_append.mp hl' with hm | hm
    rotate_left
    · rcases List.mem_cons.mp hm with rfl | hm
      · exact absurd hpre (by decide)
      · rcases List.mem_cons.mp hm with rfl | hm
        · exact absurd hpre (by decide)
        · simp at hm
    rcases List.mem_append.mp hm with hm | hm
    rotate_left
    · by_cases hu : escapeIcs url = ""
      · rw [if_pos hu] at hm
        simp at hm
      · rw [if_neg hu] at hm
        rcases List.mem_singleton.mp hm with rfl
        exact (head_attendee_pre_false 'U'
          (str_append_head "URL:" (escapeIcs url) 'U' rfl) (by decide) hpre).elim
    rcases List.mem_append.mp hm with hm | hm
    rotate_left
    · obtain ⟨p, _, _, rfl⟩ := mem_cancelAttendeeLines _ _ _ hm
      exact ⟨escapeIcs (if p.2 = "" then pyStrip p.1 else p.2), pyStrip p.1,
        Or.inr rfl⟩
    rcases List.mem_append.mp hm with hm | hm
    rotate_left
    · obtain ⟨p, _, _, rfl⟩ := mem_cancelAttendeeLines _ _ _ hm
      exact ⟨escapeIcs (if p.2 = "" then pyStrip p.1 else p.2), pyStrip p.1,
        Or.inl rfl⟩
    rcases List.mem_cons.mp hm with rfl | hm
    · exact absurd hpre (by decide)
    rcases List.mem_cons.mp hm with rfl | hm
    · exact absurd hpre (by decide)
    rcases List.mem_cons.mp hm with rfl | hm
    · exact absurd hpre (by decide)
    rcases List.mem_cons.mp hm with rfl | hm
    · exact absurd hpre (by decide)
    rcases List.mem_cons.mp hm with rfl | hm
    · exact absurd hpre (by decide)
    rcases List.mem_cons.mp hm with rfl | hm
    · exact absurd hpre (by decide)
    rcases List.mem_cons.mp hm with rfl | hm
    · exact (head_attendee_pre_false 'U'
        (str_append_head "UID:" uid 'U' rfl) (by decide) hpre).elim
    rcases List.mem_cons.mp hm with rfl | hm
    · exact (head_attendee_pre_false 'S'
        (str_append_head "SEQUENCE:" (toString sq) 'S' rfl) (by decide) hpre).elim
    rcases List.mem_cons.mp hm with rfl | hm
    · exact (head_attendee_pre_false 'D'
        (str_append_head "DTSTAMP:" (format_dt now) 'D' rfl) (by decide) hpre).elim
    rcases List.mem_cons.mp hm with rfl | hm
    · exact (head_attendee_pre_false 'D'
        (str_append_head "DTSTART:" (format_dt st) 'D' rfl) (by decide) hpre).elim
    rcases List.mem_cons.mp hm with rfl | hm
    · exact (head_attendee_pre_false 'D'
        (str_append_head "DTEND:" (format_dt en) 'D' rfl) (by decide) hpre).elim
    rcases List.mem_cons.mp hm with rfl | hm
    · exact (head_attendee_pre_false 'S'
        (str_append_head "SUMMARY:" (escapeIcs su) 'S' rfl) (by decide) hpre).elim
    rcases List.mem_cons.mp hm with rfl | hm
    · exact (head_attendee_pre_false 'D'
        (str_append_head "DESCRIPTION:" (mergeDescUrl (escapeIcs de) (escapeIcs url))
          'D' rfl) (by decide) hpre).elim
    rcases List.mem_cons.mp hm with rfl | hm
    · exact (head_attendee_pre_false 'L'
        (str_append_head "LOCATION:" (escapeIcs loc) 'L' rfl) (by decide) hpre).elim
    rcases List.mem_cons.mp hm with rfl | hm
    · exact absurd hpre (by decide)
    rcases List.mem_cons.mp hm with rfl | hm
    · exact (head_attendee_pre_false 'O'
        (str_append_head ("ORGANIZER;CN=" ++ escapeIcs onm) ":mailto:" 'O'
          (str_append_head "ORGANIZER;CN=" (escapeIcs onm) 'O' rfl))
        (by decide) hpre).elim
    · simp at hm

/-- Witness for C7 at concrete inputs. -/
theorem cancellation_structure_witness :
    ("abc@domain" : String) ≠ "" ∧
      ∃ L : List String,
        generate_cancellation_ics "a@x.com" "A" [("b@x.com", "B")] [] "S" ""
            dummyDT dummyDT "abc@domain" 1 "" "" dummyDT = .ok (crlfJoin L) ∧
          "METHOD:CANCEL" ∈ L ∧ "BEGIN:VALARM" ∉ L := by
  refine ⟨by decide, ?_⟩
  obtain ⟨L, hok, _, hmc, _, _, _, _, hva, _, _, _⟩ :=
    cancellation_structure "a@x.com" "A" [("b@x.com", "B")] [] "S" ""
      dummyDT dummyDT "abc@domain" 1 "" "" dummyDT (by decide)
  exact ⟨L, hok, hmc, hva⟩

theorem attendeeLines_eq (role : String) (atts : List (String × String)) :
    attendeeLines role atts
      = (atts.filter (fun p => !(pyStrip p.1 == ""))).map (fun p =>
          "ATTENDEE;CN=" ++ escapeIcs (if p.2 = "" then pyStrip p.1 else p.2) ++
          ";ROLE=" ++ role ++ ";PARTSTAT=NEEDS-ACTION;RSVP=TRUE:mailto:" ++
          pyStrip p.1) := by
  induction atts with
  | nil => rfl
  | cons p rest ih =>
    simp only [attendeeLines] at ih ⊢
    by_cases h : pyStrip p.1 = ""
    · simp [List.filterMap_cons, List.filter_cons, h, ih]
    · simp [List.filterMap_cons, List.filter_cons, h, ih]

theorem attendeeLines_filter_self (role : String)
    (atts : List (String × String)) :
    (attendeeLines role atts).filter
      (fun l => "ATTENDEE".data.isPrefixOf l.data) = attendeeLines role atts := by
  refine List.filter_eq_self.mpr (fun l hl => ?_)
  obtain ⟨p, _, _, rfl⟩ := mem_attendeeLines role atts l hl
  have hpre : "ATTENDEE".data <+: ("ATTENDEE;CN=" ++
      escapeIcs (if p.2 = "" then pyStrip p.1 else p.2) ++ ";ROLE=" ++ role ++
      ";PARTSTAT=NEEDS-ACTION;RSVP=TRUE:mailto:" ++ pyStrip p.1).data := by
    refine List.IsPrefix.trans (show "ATTENDEE".data <+: "ATTENDEE;CN=".data
      by decide) ?_
    exact str_prefix_trans _ (str_prefix_trans _ (str_prefix_trans _
      (str_prefix_trans _ (str_prefix_trans _ (List.prefix_refl _)))))
  exact List.isPrefixOf_iff_prefix.mpr hpre

/-- C9: in the invite, every required attendee with non-blank e-mail is
emitted with `ROLE=REQ-PARTICIPANT` and `PARTSTAT=NEEDS-ACTION;RSVP=TRUE`,
every optional one with `ROLE=OPT-PARTICIPANT` and the same
response-requested status; attendees whose e-mail strips to empty are
silently skipped (the build still succeeds), and the `ATTENDEE` lines of
the document are exactly the non-blank required attendees followed by the
non-blank optional ones. -/
theorem build_invite_attendee_roles
    (oe onm : String) (req opt : List (String × String)) (su de : String)
    (t1 t2 : PyDatetime) (loc url : String) (uid : Option String)
    (now : PyDatetime) (uuid4 : String) (hoe : oe ≠ "") (hsu : su ≠ "") :
    ∃ L : List String,
      build_ics_invite oe onm req opt su de (some t1) (some t2) loc url uid
          now uuid4 = .ok (crlfJoin L) ∧
      L.filter (fun l => "ATTENDEE".data.isPrefixOf l.data)
        = attendeeLines "REQ-PARTICIPANT" req
          ++ attendeeLines "OPT-PARTICIPANT" opt ∧
      attendeeLines "REQ-PARTICIPANT" req
        = (req.filter (fun p => !(pyStrip p.1 == ""))).map (fun p =>
            "ATTENDEE;CN=" ++ escapeIcs (if p.2 = "" then pyStrip p.1 else p.2)
            ++ ";ROLE=" ++ "REQ-PARTICIPANT"
            ++ ";PARTSTAT=NEEDS-ACTION;RSVP=TRUE:mailto:" ++ pyStrip p.1) ∧
      attendeeLines "OPT-PARTICIPANT" opt
        = (opt.filter (fun p => !(pyStrip p.1 == ""))).map (fun p =>
            "ATTENDEE;CN=" ++ escapeIcs (if p.2 = "" then pyStrip p.1 else p.2)
            ++ ";ROLE=" ++ "OPT-PARTICIPANT"
            ++ ";PARTSTAT=NEEDS-ACTION;RSVP=TRUE:mailto:" ++ pyStrip p.1) ∧
      (∀ p ∈ req, pyStrip p.1 ≠ "" →
        ("ATTENDEE;CN=" ++ escapeIcs (if p.2 = "" then pyStrip p.1 else p.2)
          ++ ";ROLE=" ++ "REQ-PARTICIPANT"
          ++ ";PARTSTAT=NEEDS-ACTION;RSVP=TRUE:mailto:" ++ pyStrip p.1) ∈ L) ∧
      (∀ p ∈ opt, pyStrip p.1 ≠ "" →
        ("ATTENDEE;CN=" ++ escapeIcs (if p.2 = "" then pyStrip p.1 else p.2)
          ++ ";ROLE=" ++ "OPT-PARTICIPANT"
          ++ ";PARTSTAT=NEEDS-ACTION;RSVP=TRUE:mailto:" ++ pyStrip p.1) ∈ L) := by
  refine ⟨inviteLines oe onm req opt su de t1 t2 loc url
    (emittedUid uid uuid4) now, ?_, ?_,
    attendeeLines_eq "REQ-PARTICIPANT" req,
    attendeeLines_eq "OPT-PARTICIPANT" opt, ?_, ?_⟩
  · rw [build_ics_invite, if_neg hoe, if_neg hsu, if_neg (by simp)]
    rfl
  · have pU := isPrefixOf_false_of_head_ne "ATTENDEE".data
      ("UID:" ++ emittedUid uid uuid4).data 'A' 'U' rfl
      (str_append_head _ _ 'U' rfl) (by decide)
    have pDS := isPrefixOf_false_of_head_ne "ATTENDEE".data
      ("DTSTAMP:" ++ format_dt now).data 'A' 'D' rfl
      (str_append_head _ _ 'D' rfl) (by decide)
    have pD1 := isPrefixOf_false_of_head_ne "ATTENDEE".data
      ("DTSTART:" ++ format_dt t1).data 'A' 'D' rfl
      (str_append_head _ _ 'D' rfl) (by decide)
    have pD2 := isPrefixOf_false_of_head_ne "ATTENDEE".data
      ("DTEND:" ++ format_dt t2).data 'A' 'D' rfl
      (str_append_head _ _ 'D' rfl) (by decide)
    have pSU := isPrefixOf_false_of_head_ne "ATTENDEE".data
      ("SUMMARY:" ++ escapeIcs su).data 'A' 'S' rfl
      (str_append_head _ _ 'S' rfl) (by decide)
    have pDE := isPrefixOf_false_of_head_ne "ATTENDEE".data
      ("DESCRIPTION:" ++ mergeDescUrl (escapeIcs de) (escapeIcs url)).data
      'A' 'D' rfl (str_append_head _ _ 'D' rfl) (by decide)
    have pLO := isPrefixOf_false_of_head_ne "ATTENDEE".data
      ("LOCATION:" ++ escapeIcs loc).data 'A' 'L' rfl
      (str_append_head _ _ 'L' rfl) (by decide)
    have pOR := isPrefixOf_false_of_head_ne "ATTENDEE".data
      ("ORGANIZER;CN=" ++ escapeIcs onm ++ ":mailto:" ++ oe).data 'A' 'O' rfl
      (str_append_head _ _ 'O' (str_append_head _ _ 'O'
        (str_append_head _ _ 'O' rfl))) (by decide)
    have purlseg : ((if escapeIcs url = "" then []
        else ["URL:" ++ escapeIcs url]) : List String).filter
        (fun l => "ATTENDEE".data.isPrefixOf l.data) = [] := by
      by_cases h : escapeIcs url = ""
      · simp [h]
      · rw [if_neg h]
        have pUr := isPrefixOf_false_of_head_ne "ATTENDEE".data
          ("URL:" ++ escapeIcs url).data 'A' 'U' rfl
          (str_append_head _ _ 'U' rfl) (by decide)
        simp [List.filter_cons, pUr]
    have pL1 : ("ATTENDEE".data.isPrefixOf "BEGIN:VCALENDAR".data) = false := by decide
    have pL2 : ("ATTENDEE".data.isPrefixOf
      "PRODID:-//PowerDash HR//Interview Scheduler//EN".data) = false := by decide
    have pL3 : ("ATTENDEE".data.isPrefixOf "VERSION:2.0".data) = false := by decide
    have pL4 : ("ATTENDEE".data.isPrefixOf "CALSCALE:GREGORIAN".data) = false := by decide
    have pL5 : ("ATTENDEE".data.isPrefixOf "METHOD:REQUEST".data) = false := by decide
    have pL6 : ("ATTENDEE".data.isPrefixOf "BEGIN:VEVENT".data) = false := by decide
    have pL7 : ("ATTENDEE".data.isPrefixOf "STATUS:CONFIRMED".data) = false := by decide
    have pL8 : ("ATTENDEE".data.isPrefixOf "TRANSP:OPAQUE".data) = false := by decide
    have pL9 : ("ATTENDEE".data.isPrefixOf "BEGIN:VALARM".data) = false := by decide
    have pL10 : ("ATTENDEE".data.isPrefixOf "TRIGGER:-PT15M".data) = false := by decide
    have pL11 : ("ATTENDEE".data.isPrefixOf "ACTION:DISPLAY".data) = false := by decide
    have pL12 : ("ATTENDEE".data.isPrefixOf
      "DESCRIPTION:Interview Reminder".data) = false := by decide
    have pL13 : ("ATTENDEE".data.isPrefixOf "END:VALARM".data) = false := by decide
    have pL14 : ("ATTENDEE".data.isPrefixOf "END:VEVENT".data) = false := by decide
    have pL15 : ("ATTENDEE".data.isPrefixOf "END:VCALENDAR".data) = false := by decide
    show List.filter _ (_ ++ attendeeLines "REQ-PARTICIPANT" req
      ++ attendeeLines "OPT-PARTICIPANT" opt ++ _ ++ _ ++ _) = _
    rw [List.filter_append, List.filter_append, List.filter_append,
      List.filter_append, List.filter_append,
      attendeeLines_filter_self "REQ-PARTICIPANT" req,
      attendeeLines_filter_self "OPT-PARTICIPANT" opt, purlseg]
    simp [List.filter_cons, pU, pDS, pD1, pD2, pSU, pDE, pLO, pOR,
      pL1, pL2, pL3, pL4, pL5, pL6, pL7, pL8, pL9, pL10, pL11, pL12,
      pL13, pL14, pL15]
  · intro p hp hne
    have hmem : ("ATTENDEE;CN=" ++
        escapeIcs (if p.2 = "" then pyStrip p.1 else p.2) ++ ";ROLE=" ++
        "REQ-PARTICIPANT" ++ ";PARTSTAT=NEEDS-ACTION;RSVP=TRUE:mailto:" ++
        pyStrip p.1) ∈ attendeeLines "REQ-PARTICIPANT" req := by
      rw [attendeeLines, List.mem_filterMap]
      exact ⟨p, hp, by simp [hne]⟩
    show _ ∈ (_ ++ attendeeLines "REQ-PARTICIPANT" req
      ++ attendeeLines "OPT-PARTICIPANT" opt ++ _ ++ _ ++ _ : List String)
    exact List.mem_append_left _ (List.mem_append_left _
      (List.mem_append_left _ (List.mem_append_left _
        (List.mem_append_right _ hmem))))
  · intro p hp hne
    have hmem : ("ATTENDEE;CN=" ++
        escapeIcs (if p.2 = "" then pyStrip p.1 else p.2) ++ ";ROLE=" ++
        "OPT-PARTICIPANT" ++ ";PARTSTAT=NEEDS-ACTION;RSVP=TRUE:mailto:" ++
        pyStrip p.1) ∈ attendeeLines "OPT-PARTICIPANT" opt := by
      rw [attendeeLines, List.mem_filterMap]
      exact ⟨p, hp, by simp [hne]⟩
    show _ ∈ (_ ++ attendeeLines "REQ-PARTICIPANT" req
      ++ attendeeLines "OPT-PARTICIPANT" opt ++ _ ++ _ ++ _ : List String)
    exact List.mem_append_left _ (List.mem_append_left _
      (List.mem_append_left _ (List.mem_append_right _ hmem)))

/-- Witness for C9 at concrete inputs including a blank-email attendee. -/
theorem build_invite_attendee_roles_witness :
    ("a@x.com" : String) ≠ "" ∧ ("S" : String) ≠ "" ∧
      ∃ L : List String,
        build_ics_invite "a@x.com" "A" [("b@x.com", "B"), ("  ", "Blank")]
            [("c@x.com", "C")] "S" "" (some dummyDT) (some dummyDT) "" ""
            none dummyDT "tok" = .ok (crlfJoin L) ∧
          L.filter (fun l => "ATTENDEE".data.isPrefixOf l.data)
            = attendeeLines "REQ-PARTICIPANT" [("b@x.com", "B"), ("  ", "Blank")]
              ++ attendeeLines "OPT-PARTICIPANT" [("c@x.com", "C")] := by
  refine ⟨by decide, by decide, ?_⟩
  obtain ⟨L, h1, h2, _, _, _, _⟩ :=
    build_invite_attendee_roles "a@x.com" "A"
      [("b@x.com", "B"), ("  ", "Blank")] [("c@x.com", "C")] "S" ""
      dummyDT dummyDT "" "" none dummyDT "tok" (by decide) (by decide)
  exact ⟨L, h1, h2⟩

theorem count_cancellationLines_beginVevent (oe onm : String)
    (atts opts : List (String × String)) (su de : String)
    (st en : PyDatetime) (uid : String) (sq : Int) (loc url : String)
    (now : PyDatetime) :
    (cancellationLines oe onm atts opts su de st en uid sq loc url
      now).count "BEGIN:VEVENT" = 1 := by
  have hreq : (cancelAttendeeLines "REQ-PARTICIPANT" atts).count "BEGIN:VEVENT" = 0 :=
    List.count_eq_zero.mpr (not_mem_cancelAttendeeLines _ _ _ (by decide))
  have hopt : (cancelAttendeeLines "OPT-PARTICIPANT" opts).count "BEGIN:VEVENT" = 0 :=
    List.count_eq_zero.mpr (not_mem_cancelAttendeeLines _ _ _ (by decide))
  have hurl : ((if escapeIcs url = "" then [] else ["URL:" ++ escapeIcs url]) :
      List String).count "BEGIN:VEVENT" = 0 := by
    by_cases h : escapeIcs url = ""
    · simp [h]
    · rw [if_neg h, List.count_cons_of_ne
        (Ne.symm (append_ne_of_not_pref "URL:" (escapeIcs url)
          "BEGIN:VEVENT" (by decide))), List.count_nil]
  show (_ ++ cancelAttendeeLines "REQ-PARTICIPANT" atts
      ++ cancelAttendeeLines "OPT-PARTICIPANT" opts ++ _ ++ _).count _ = 1
  rw [List.count_append, List.count_append, List.count_append,
    List.count_append, hreq, hopt, hurl]
  rw [List.count_cons_of_ne (by decide), List.count_cons_of_ne (by decide),
    List.count_cons_of_ne (by decide), List.count_cons_of_ne (by decide),
    List.count_cons_of_ne (by decide), List.count_cons_self,
    List.count_cons_of_ne (Ne.symm (append_ne_of_not_pref "UID:" uid
      "BEGIN:VEVENT" (by decide))),
    List.count_cons_of_ne (Ne.symm (append_ne_of_not_pref "SEQUENCE:"
      (toString sq) "BEGIN:VEVENT" (by decide))),
    List.count_cons_of_ne (Ne.symm (append_ne_of_not_pref "DTSTAMP:"
      (format_dt now) "BEGIN:VEVENT" (by decide))),
    List.count_cons_of_ne (Ne.symm (append_ne_of_not_pref "DTSTART:"
      (format_dt st) "BEGIN:VEVENT" (by decide))),
    List.count_cons_of_ne (Ne.symm (append_ne_of_not_pref "DTEND:"
      (format_dt en) "BEGIN:VEVENT" (by decide))),
    List.count_cons_of_ne (Ne.symm (append_ne_of_not_pref "SUMMARY:"
      (escapeIcs su) "BEGIN:VEVENT" (by decide))),
    List.count_cons_of_ne (Ne.symm (append_ne_of_not_pref "DESCRIPTION:"
      (mergeDescUrl (escapeIcs de) (escapeIcs url)) "BEGIN:VEVENT" (by decide))),
    List.count_cons_of_ne (Ne.symm (append_ne_of_not_pref "LOCATION:"
      (escapeIcs loc) "BEGIN:VEVENT" (by decide))),
    List.count_cons_of_ne (by decide),
    List.count_cons_of_ne (Ne.symm (ne_of_append_head
      ("ORGANIZER;CN=" ++ escapeIcs onm ++ ":mailto:") oe "BEGIN:VEVENT" 'O' 'B'
      (str_append_head _ _ 'O' (str_append_head _ _ 'O' rfl)) rfl (by decide))),
    List.count_nil]
  decide

theorem count_cancellationLines_endVevent (oe onm : String)
    (atts opts : List (String × String)) (su de : String)
    (st en : PyDatetime) (uid : String) (sq : Int) (loc url : String)
    (now : PyDatetime) :
    (cancellationLines oe onm atts opts su de st en uid sq loc url
      now).count "END:VEVENT" = 1 := by
  have hreq : (cancelAttendeeLines "REQ-PARTICIPANT" atts).count "END:VEVENT" = 0 :=
    List.count_eq_zero.mpr (not_mem_cancelAttendeeLines _ _ _ (by decide))
  have hopt : (cancelAttendeeLines "OPT-PARTICIPANT" opts).count "END:VEVENT" = 0 :=
    List.count_eq_zero.mpr (not_mem_cancelAttendeeLines _ _ _ (by decide))
  have hurl : ((if escapeIcs url = "" then [] else ["URL:" ++ escapeIcs url]) :
      List String).count "END:VEVENT" = 0 := by
    by_cases h : escapeIcs url = ""
    · simp [h]
    · rw [if_neg h, List.count_cons_of_ne
        (Ne.symm (append_ne_of_not_pref "URL:" (escapeIcs url)
          "END:VEVENT" (by decide))), List.count_nil]
  show (_ ++ cancelAttendeeLines "REQ-PARTICIPANT" atts
      ++ cancelAttendeeLines "OPT-PARTICIPANT" opts ++ _ ++ _).count _ = 1
  rw [List.count_append, List.count_append, List.count_append,
    List.count_append, hreq, hopt, hurl]
  rw [List.count_cons_of_ne (by decide), List.count_cons_of_ne (by decide),
    List.count_cons_of_ne (by decide), List.count_cons_of_ne (by decide),
    List.count_cons_of_ne (by decide), List.count_cons_of_ne (by decide),
    List.count_cons_of_ne (Ne.symm (append_ne_of_not_pref "UID:" uid
      "END:VEVENT" (by decide))),
    List.count_cons_of_ne (Ne.symm (append_ne_of_not_pref "SEQUENCE:"
      (toString sq) "END:VEVENT" (by decide))),
    List.count_cons_of_ne (Ne.symm (append_ne_of_not_pref "DTSTAMP:"
      (format_dt now) "END:VEVENT" (by decide))),
    List.count_cons_of_ne (Ne.symm (append_ne_of_not_pref "DTSTART:"
      (format_dt st) "END:VEVENT" (by decide))),
    List.count_cons_of_ne (Ne.symm (append_ne_of_not_pref "DTEND:"
      (format_dt en) "END:VEVENT" (by decide))),
    List.count_cons_of_ne (Ne.symm (append_ne_of_not_pref "SUMMARY:"
      (escapeIcs su) "END:VEVENT" (by decide))),
    List.count_cons_of_ne (Ne.symm (append_ne_of_not_pref "DESCRIPTION:"
      (mergeDescUrl (escapeIcs de) (escapeIcs url)) "END:VEVENT" (by decide))),
    List.count_cons_of_ne (Ne.symm (append_ne_of_not_pref "LOCATION:"
      (escapeIcs loc) "END:VEVENT" (by decide))),
    List.count_cons_of_ne (by decide),
    List.count_cons_of_ne (Ne.symm (ne_of_append_head
      ("ORGANIZER;CN=" ++ escapeIcs onm ++ ":mailto:") oe "END:VEVENT" 'O' 'E'
      (str_append_head _ _ 'O' (str_append_head _ _ 'O' rfl)) rfl (by decide))),
    List.count_nil]
  decide

theorem inviteLines_no_sequence (oe onm : String)
    (req opt : List (String × String)) (su de : String) (t1 t2 : PyDatetime)
    (loc url : String) (u : String) (now : PyDatetime) :
    ∀ l ∈ inviteLines oe onm req opt su de t1 t2 loc url u now,
      ("SEQUENCE:".data.isPrefixOf l.data) = false := by
  intro l hl
  have hl' : l ∈ (_ ++ attendeeLines "REQ-PARTICIPANT" req
      ++ attendeeLines "OPT-PARTICIPANT" opt ++ _ ++ _ ++ _ :
      List String) := hl
  rcases List.mem_append.mp hl' with hm | hm
  rotate_left
  · rcases List.mem_cons.mp hm with rfl | hm
    · rfl
    · rcases List.mem_cons.mp hm with rfl | hm
      · rfl
      · simp at hm
  rcases List.mem_append.mp hm with hm | hm
  rotate_left
  · rcases List.mem_cons.mp hm with rfl | hm
    · rfl
    rcases List.mem_cons.mp hm with rfl | hm
    · rfl
    rcases List.mem_cons.mp hm with rfl | hm
    · rfl
    rcases List.mem_cons.mp hm with rfl | hm
    · rfl
    rcases List.mem_cons.mp hm with rfl | hm
    · rfl
    · simp at hm
  rcases List.mem_append.mp hm with hm | hm
  rotate_left
  · by_cases hu : escapeIcs url = ""
    · rw [if_pos hu] at hm
      simp at hm
    · rw [if_neg hu] at hm
      rcases List.mem_singleton.mp hm with rfl
      rfl
  rcases List.mem_append.mp hm with hm | hm
  rotate_left
  · obtain ⟨p, _, _, rfl⟩ := mem_attendeeLines _ _ _ hm
    rfl
  rcases List.mem_append.mp hm with hm | hm
  rotate_left
  · obtain ⟨p, _, _, rfl⟩ := mem_attendeeLines _ _ _ hm
    rfl
  rcases List.mem_cons.mp hm with rfl | hm
  · rfl
  rcases List.mem_cons.mp hm with rfl | hm
  · rfl
  rcases List.mem_cons.mp hm with rfl | hm
  · rfl
  rcases List.mem_cons.mp hm with rfl | hm
  · rfl
  rcases List.mem_cons.mp hm with rfl | hm
  · rfl
  rcases List.mem_cons.mp hm with rfl | hm
  · rfl
  rcases List.mem_cons.mp hm with rfl | hm
  · rfl
  rcases List.mem_cons.mp hm with rfl | hm
  · rfl
  rcases List.mem_cons.mp hm with rfl | hm
  · rfl
  rcases List.mem_cons.mp hm with rfl | hm
  · rfl
  rcases List.mem_cons.mp hm with rfl | hm
  · rfl
  rcases List.mem_cons.mp hm with rfl | hm
  · rfl
  rcases List.mem_cons.mp hm with rfl | hm
  · rfl
  rcases List.mem_cons.mp hm with rfl | hm
  · rfl
  rcases List.mem_cons.mp hm with rfl | hm
  · rfl
  rcases List.mem_cons.mp hm with rfl | hm
  · rfl
  · simp at hm

/-- C8 counterexample: a concretely built invite document contains no
sequence-number (`SEQUENCE:`) field at all, refuting the claim that
every assembled document's event block carries one. -/
theorem invite_sequence_counterexample :
    build_ics_invite "a@x.com" "A" [("b@x.com", "B")] [] "S" "D"
        (some dummyDT) (some dummyDT) "" "" (some "u@d") dummyDT "tok"
      = .ok (crlfJoin (inviteLines "a@x.com" "A" [("b@x.com", "B")] [] "S" "D"
          dummyDT dummyDT "" "" "u@d" dummyDT)) ∧
    (inviteLines "a@x.com" "A" [("b@x.com", "B")] [] "S" "D" dummyDT dummyDT
        "" "" "u@d" dummyDT).all
      (fun l => !("SEQUENCE:".data.isPrefixOf l.data)) = true := by
  constructor
  · rw [build_ics_invite, if_neg (by decide), if_neg (by decide),
      if_neg (by simp)]
    rfl
  · rfl

/-- C8 (amended): both documents consist of the fixed calendar header,
exactly one event block, attendee entries, alarm and footer — but the
sequence-number field is carried only by cancellation documents; invites
have none, and only invites carry the alarm block. -/
theorem document_structure_amended
    (oe onm : String) (req opt : List (String × String)) (su de : String)
    (t1 t2 : PyDatetime) (loc url : String) (uid : Option String)
    (now : PyDatetime) (uuid4 : String) (uid2 : String) (sq : Int)
    (hoe : oe ≠ "") (hsu : su ≠ "") (huid2 : uid2 ≠ "") :
    (∃ Li : List String,
      build_ics_invite oe onm req opt su de (some t1) (some t2) loc url uid
          now uuid4 = .ok (crlfJoin Li) ∧
      Li.head? = some "BEGIN:VCALENDAR" ∧
      Li.getLast? = some "END:VCALENDAR" ∧
      Li.count "BEGIN:VEVENT" = 1 ∧ Li.count "END:VEVENT" = 1 ∧
      "BEGIN:VALARM" ∈ Li ∧
      (∀ l ∈ Li, ("SEQUENCE:".data.isPrefixOf l.data) = false)) ∧
    (∃ Lc : List String,
      generate_cancellation_ics oe onm req opt su de t1 t2 uid2 sq loc url
          now = .ok (crlfJoin Lc) ∧
      Lc.head? = some "BEGIN:VCALENDAR" ∧
      Lc.getLast? = some "END:VCALENDAR" ∧
      Lc.count "BEGIN:VEVENT" = 1 ∧ Lc.count "END:VEVENT" = 1 ∧
      ("SEQUENCE:" ++ toString sq) ∈ Lc ∧ "BEGIN:VALARM" ∉ Lc) := by
  constructor
  · refine ⟨inviteLines oe onm req opt su de t1 t2 loc url
      (emittedUid uid uuid4) now, ?_, rfl, ?_,
      count_inviteLines_beginVevent oe onm req opt su de t1 t2 loc url
        (emittedUid uid uuid4) now,
      count_inviteLines_endVevent oe onm req opt su de t1 t2 loc url
        (emittedUid uid uuid4) now, ?_,
      inviteLines_no_sequence oe onm req opt su de t1 t2 loc url
        (emittedUid uid uuid4) now⟩
    · rw [build_ics_invite, if_neg hoe, if_neg hsu, if_neg (by simp)]
      rfl
    · have hdec : inviteLines oe onm req opt su de t1 t2 loc url
          (emittedUid uid uuid4) now
          = (["BEGIN:VCALENDAR",
              "PRODID:-//PowerDash HR//Interview Scheduler//EN",
              "VERSION:2.0", "CALSCALE:GREGORIAN", "METHOD:REQUEST",
              "BEGIN:VEVENT", "UID:" ++ emittedUid uid uuid4,
              "DTSTAMP:" ++ format_dt now, "DTSTART:" ++ format_dt t1,
              "DTEND:" ++ format_dt t2, "SUMMARY:" ++ escapeIcs su,
              "DESCRIPTION:" ++ mergeDescUrl (escapeIcs de) (escapeIcs url),
              "LOCATION:" ++ escapeIcs loc, "STATUS:CONFIRMED",
              "TRANSP:OPAQUE",
              "ORGANIZER;CN=" ++ escapeIcs onm ++ ":mailto:" ++ oe]
            ++ attendeeLines "REQ-PARTICIPANT" req
            ++ attendeeLines "OPT-PARTICIPANT" opt
            ++ (if escapeIcs url = "" then [] else ["URL:" ++ escapeIcs url])
            ++ ["BEGIN:VALARM", "TRIGGER:-PT15M", "ACTION:DISPLAY",
                "DESCRIPTION:Interview Reminder", "END:VALARM"]
            ++ ["END:VEVENT"]) ++ ["END:VCALENDAR"] := by
        simp [inviteLines]
      rw [hdec]
      exact List.getLast?_concat _
    · show "BEGIN:VALARM" ∈ (_ ++ attendeeLines "REQ-PARTICIPANT" req
        ++ _ ++ _ ++ _ ++ _ : List String)
      simp
  · refine ⟨cancellationLines oe onm req opt su de t1 t2 uid2 sq loc url now,
      ?_, rfl, ?_,
      count_cancellationLines_beginVevent oe onm req opt su de t1 t2 uid2
        sq loc url now,
      count_cancellationLines_endVevent oe onm req opt su de t1 t2 uid2
        sq loc url now, ?_, ?_⟩
    · rw [generate_cancellation_ics, if_neg huid2]
    · have hdec : cancellationLines oe onm req opt su de t1 t2 uid2 sq loc
          url now
          = (["BEGIN:VCALENDAR",
              "PRODID:-//PowerDash HR//Interview Scheduler//EN",
              "VERSION:2.0", "CALSCALE:GREGORIAN", "METHOD:CANCEL",
              "BEGIN:VEVENT", "UID:" ++ uid2,
              "SEQUENCE:" ++ toString sq, "DTSTAMP:" ++ format_dt now,
              "DTSTART:" ++ format_dt t1, "DTEND:" ++ format_dt t2,
              "SUMMARY:" ++ escapeIcs su,
              "DESCRIPTION:" ++ mergeDescUrl (escapeIcs de) (escapeIcs url),
              "LOCATION:" ++ escapeIcs loc, "STATUS:CANCELLED",
              "ORGANIZER;CN=" ++ escapeIcs onm ++ ":mailto:" ++ oe]
            ++ cancelAttendeeLines "REQ-PARTICIPANT" req
            ++ cancelAttendeeLines "OPT-PARTICIPANT" opt
            ++ (if escapeIcs url = "" then [] else ["URL:" ++ escapeIcs url])
            ++ ["END:VEVENT"]) ++ ["END:VCALENDAR"] := by
        simp [cancellationLines]
      rw [hdec]
      exact List.getLast?_concat _
    · show ("SEQUENCE:" ++ toString sq) ∈ (_ ++ cancelAttendeeLines
        "REQ-PARTICIPANT" req ++ _ ++ _ ++ _ : List String)
      exact List.mem_append_left _ (List.mem_append_left _
        (List.mem_append_left _ (List.mem_append_left _ (by simp))))
    · exact not_mem_cancellationLines _ _ _ _ _ _ _ _ _ _ _ _ _ _ (by decide)
        (by decide) (by decide) (by decide) (by decide) (by decide)
        (by decide) (by decide) (by decide) (by decide) (by decide)
        (by decide)

/-- Witness for the amended C8 at concrete inputs. -/
theorem document_structure_amended_witness :
    ("a@x.com" : String) ≠ "" ∧ ("S" : String) ≠ "" ∧
      ("u@d" : String) ≠ "" ∧
      ∃ Li : List String,
        build_ics_invite "a@x.com" "A" [] [] "S" "" (some dummyDT)
            (some dummyDT) "" "" none dummyDT "tok" = .ok (crlfJoin Li) ∧
          Li.count "BEGIN:VEVENT" = 1 := by
  refine ⟨by decide, by decide, by decide, ?_⟩
  obtain ⟨⟨Li, h1, _, _, h4, _, _, _⟩, _⟩ :=
    document_structure_amended "a@x.com" "A" [] [] "S" "" dummyDT dummyDT
      "" "" none dummyDT "tok" "u@d" 1 (by decide) (by decide) (by decide)
  exact ⟨Li, h1, h4⟩

/-- C10: the wrapper entry points refine the core invite builder.
`ICSInvite.to_bytes` returns exactly the core builder's result with each
attendee e-mail paired with itself as display name and no optional
attendees; `create_ics_from_interview` with a non-empty uid seed returns
the core builder's result with the identifier set to the stable
identifier of that seed under the default domain, and with no
identifier when the seed is absent.  (Stated over the modelled
definitions: the committed module cannot run at all — see the
displaced-parenthesis note on `create_ics_from_interview`.) -/
theorem wrappers_refine_core (inv : ICSInvite)
    (now : PyDatetime) (uuid4 : String)
    (oe onm : String) (atts opts : List (String × String)) (su de : String)
    (st en : Option PyDatetime) (loc url : String) (s : String)
    (hs : s ≠ "") :
    inv.to_bytes now uuid4
      = build_ics_invite inv.organizer_email inv.organizer_name
          (inv.attendee_emails.map (fun e => (e, e))) [] inv.summary
          inv.description inv.dtstart_utc inv.dtend_utc inv.location
          inv.url inv.uid now uuid4 ∧
    create_ics_from_interview oe onm atts opts su de st en loc url
        (some s) now uuid4
      = build_ics_invite oe onm atts opts su de st en loc url
          (some (md5hex s ++ "@" ++ "powerdashhr.com")) now uuid4 ∧
    create_ics_from_interview oe onm atts opts su de st en loc url
        none now uuid4
      = build_ics_invite oe onm atts opts su de st en loc url
          none now uuid4 := by
  refine ⟨rfl, ?_, rfl⟩
  simp [create_ics_from_interview, stable_uid, hs, Except.map, Except.bind]

/-- Witness for C10 at concrete inputs. -/
theorem wrappers_refine_core_witness :
    ("seed" : String) ≠ "" ∧
      create_ics_from_interview "a@x.com" "A" [] [] "S" "" (some dummyDT)
          (some dummyDT) "" "" (some "seed") dummyDT "tok"
        = build_ics_invite "a@x.com" "A" [] [] "S" "" (some dummyDT)
            (some dummyDT) "" ""
            (some (md5hex "seed" ++ "@" ++ "powerdashhr.com"))
            dummyDT "tok" := by
  refine ⟨by decide, ?_⟩
  obtain ⟨_, h2, _⟩ :=
    wrappers_refine_core ⟨"a@x.com", "A", [], "S", "", some dummyDT,
      some dummyDT, "", "", none⟩ dummyDT "tok" "a@x.com" "A" [] [] "S" ""
      (some dummyDT) (some dummyDT) "" "" "seed" (by decide)
  exact h2

end ICSUtils
